import Mathlib

/-! # xnes: the 6502 interpreter core of `src/core/cpu.c`

A shallow embedding of `cpu.c`.  The C globals (`global_cpu`, the memory behind
`Mem_ReadB`/`Mem_WriteB`, and the function-local `static int interrupt` of
`Cpu_Step`) are threaded explicitly as one `State` value.

Machine integers are natural numbers reduced explicitly:
* `uint16_t` values are residues modulo `65536`, `unsigned char` values residues
  modulo `256`;
* `int` is the 32-bit two's-complement `int`, kept as a residue modulo `2^32`;
  the one `int` whose sign is observed, the step counter of `Cpu_Step`, is kept as
  its signed value and wraps from `2^31 - 1` to `-2^31`;
* the registers and flags of `struct CPU` are declared `char`; a field holds the
  byte pattern (`0..255`) and `promoteChar` is the integer promotion of a
  *signed* `char` (the `char` of the x86 and x86-64 C ABIs), i.e. sign extension.

`printf` output is not part of the state and is left out.
-/

namespace Xnes

/-! ## Integer conversions -/

/-- Integer promotion of a (signed) `char` holding byte pattern `c`: the 32-bit
two's-complement `int` with the same value, as a residue modulo `2^32`. -/
@[irreducible] def promoteChar (c : Nat) : Nat :=
  if c % 256 < 128 then c % 256 else 4294967040 + c % 256

/-- Conversion of an `int` to `unsigned char` / `char` byte pattern. -/
@[irreducible] def toByte (i : Nat) : Nat := i % 256

/-- Conversion of an `int` to `uint16_t`. -/
@[irreducible] def toWord (i : Nat) : Nat := i % 65536

/-- The `int` sum `a + b`. -/
@[irreducible] def intAdd (a b : Nat) : Nat := (a + b) % 4294967296

/-- The `int` difference `a - b`: in two's complement, `-b` is `2^32 - b`. -/
@[irreducible] def intSub (a b : Nat) : Nat := ((4294967296 - b % 4294967296) + a) % 4294967296

/-- The `int` left shift `a << k`. -/
@[irreducible] def intShl (a k : Nat) : Nat := (a <<< k) % 4294967296

/-- The value of an `int` variable, held as its signed value, after `i++`.  At
`INT_MAX = 2^31 - 1` the increment overflows, which C leaves undefined; it is
taken here as the two's-complement wrap-around to `INT_MIN = -2^31`. -/
@[irreducible] def intIncr (i : Int) : Int :=
  if i = 2147483647 then -2147483648 else i + 1

/-! ## Memory bus -/

/-- Modelled from the spec: `memory.h` and the memory implementation are not in
`src/`.  Section 6 gives the bus contract `readByte(uint16) -> uint8`,
`readWord(uint16) -> uint16` (little-endian, two consecutive `readByte` calls) and
`writeByte(uint16, uint8)`.  Memory is a plain byte store indexed by address. -/
def Memory : Type := Nat → Nat

/-- Modelled from the spec: `Mem_ReadB(uint16_t address)` returns the byte stored
at `address`; the argument is converted to `uint16_t`, the result is a `uint8`. -/
def Mem_ReadB (m : Memory) (address : Nat) : Nat := m (address % 65536) % 256

/-- Modelled from the spec: `Mem_ReadW(uint16_t address)` is the little-endian
word made of two consecutive `Mem_ReadB` calls. -/
def Mem_ReadW (m : Memory) (address : Nat) : Nat :=
  Mem_ReadB m address + 256 * Mem_ReadB m (address % 65536 + 1)

/-- Modelled from the spec: `Mem_WriteB(uint16_t address, uint8 value)` stores
`value` at `address` and changes no other cell. -/
def Mem_WriteB (m : Memory) (address value : Nat) : Memory :=
  fun a => if a = address % 65536 then value % 256 else m a

/-! ## Data model -/

/-- The `struct CPU` of `cpu.c` (lines 23-38).  `PC` is `uint16_t`; every other
field is a `char`, stored as its byte pattern.  `Reserved[8]` is never read or
written after `memset` and is left out. -/
structure CPU where
  PC : Nat
  SP : Nat
  A : Nat
  X : Nat
  Y : Nat
  C : Nat
  Z : Nat
  I : Nat
  D : Nat
  B : Nat
  U : Nat
  V : Nat
  N : Nat

/-- The `enum ADDRESS_MODE` of `cpu.c` (lines 42-58). -/
inductive ADDRESS_MODE where
  | Future
  | ZeroPage
  | ZeroPage_X
  | ZeroPage_Y
  | Absolute
  | Absolute_X
  | Absolute_Y
  | Indirect
  | Indirect_X
  | Indirect_Y
  | Implied
  | Accumulator
  | Immediate
  | Relative
  deriving DecidableEq, Repr

/-- The numeric value of each enumerator (`Future = 0`, then counting up). -/
def ADDRESS_MODE.toNat : ADDRESS_MODE → Nat
  | .Future => 0
  | .ZeroPage => 1
  | .ZeroPage_X => 2
  | .ZeroPage_Y => 3
  | .Absolute => 4
  | .Absolute_X => 5
  | .Absolute_Y => 6
  | .Indirect => 7
  | .Indirect_X => 8
  | .Indirect_Y => 9
  | .Implied => 10
  | .Accumulator => 11
  | .Immediate => 12
  | .Relative => 13

/-- The table `static int OPBytes[]` of `cpu.c` (line 60), indexed by mode. -/
def OPBytes : List Nat := [1,2,2,2,3,3,3,3,2,2,1,1,2,2]

/-- Modelled from the spec: the mnemonic macros `OP_BRK`, `OP_ORA`, ... come from
a header that is not in `src/`.  Each macro is a mnemonic string stored in
`char name[5]`; distinct macros are taken to be distinct strings, so that
`strcmp(name, OP_X) == 0` is equality of the constructors below. -/
inductive OPNAME where
  | OP_BRK | OP_ORA | OP_ASL | OP_PHP | OP_BPL | OP_CLC | OP_JSR | OP_AND
  | OP_BIT | OP_ROL | OP_PLP | OP_BMI | OP_SEC | OP_RTI | OP_EOR | OP_LSR
  | OP_PHA | OP_JMP | OP_BVC | OP_CLI | OP_RTS | OP_ADC | OP_ROR | OP_PLA
  | OP_BVS | OP_SEI | OP_STA | OP_STY | OP_STX | OP_DEY | OP_TXA | OP_BCC
  | OP_TYA | OP_TXS | OP_LDY | OP_LDA | OP_LDX | OP_TAY | OP_TAX | OP_BCS
  | OP_CLV | OP_TSX | OP_CPY | OP_CMP | OP_DEC | OP_INY | OP_DEX | OP_BNE
  | OP_CLD | OP_CPX | OP_SBC | OP_INC | OP_INX | OP_NOP | OP_BEQ | OP_SED
  | OP_FUT
  deriving DecidableEq, Repr

/-- The `struct OPCODE` of `cpu.c` (lines 62-67). -/
structure OPCODE where
  opcode : Nat
  mode : ADDRESS_MODE
  cycles : Nat
  name : OPNAME
  deriving DecidableEq, Repr

/-- The macro `OP_FUTURE(code)` of `cpu.c` (line 13): a not implemented opcode. -/
def OP_FUTURE (code : Nat) : OPCODE := ⟨code, .Future, 1, .OP_FUT⟩

/-- The table `__ops[256]` of `cpu.c` (lines 70-342), entry for entry. -/
def __ops : List OPCODE := [
  OPCODE.mk 0x00 ADDRESS_MODE.Implied 7 OPNAME.OP_BRK,
  OPCODE.mk 0x01 ADDRESS_MODE.Indirect_X 6 OPNAME.OP_ORA,
  OP_FUTURE 0x02,
  OP_FUTURE 0x03,
  OP_FUTURE 0x04,
  OPCODE.mk 0x05 ADDRESS_MODE.ZeroPage 3 OPNAME.OP_ORA,
  OPCODE.mk 0x06 ADDRESS_MODE.ZeroPage 5 OPNAME.OP_ASL,
  OP_FUTURE 0x07,
  OPCODE.mk 0x08 ADDRESS_MODE.Implied 3 OPNAME.OP_PHP,
  OPCODE.mk 0x09 ADDRESS_MODE.Immediate 2 OPNAME.OP_ORA,
  OPCODE.mk 0x0a ADDRESS_MODE.Implied 2 OPNAME.OP_ASL,
  OP_FUTURE 0x0b,
  OP_FUTURE 0x0c,
  OPCODE.mk 0x0d ADDRESS_MODE.Absolute 4 OPNAME.OP_ORA,
  OPCODE.mk 0x0e ADDRESS_MODE.Absolute 6 OPNAME.OP_ASL,
  OP_FUTURE 0x0f,
  OPCODE.mk 0x10 ADDRESS_MODE.Relative 2 OPNAME.OP_BPL,
  OPCODE.mk 0x11 ADDRESS_MODE.Indirect_Y 5 OPNAME.OP_ORA,
  OP_FUTURE 0x12,
  OP_FUTURE 0x13,
  OP_FUTURE 0x14,
  OPCODE.mk 0x15 ADDRESS_MODE.ZeroPage_X 4 OPNAME.OP_ORA,
  OPCODE.mk 0x16 ADDRESS_MODE.ZeroPage_X 6 OPNAME.OP_ASL,
  OP_FUTURE 0x17,
  OPCODE.mk 0x18 ADDRESS_MODE.Implied 2 OPNAME.OP_CLC,
  OPCODE.mk 0x19 ADDRESS_MODE.Absolute_Y 4 OPNAME.OP_ORA,
  OP_FUTURE 0x1a,
  OP_FUTURE 0x1b,
  OP_FUTURE 0x1c,
  OPCODE.mk 0x1d ADDRESS_MODE.Absolute_X 4 OPNAME.OP_ORA,
  OPCODE.mk 0x1e ADDRESS_MODE.Absolute_X 7 OPNAME.OP_ASL,
  OP_FUTURE 0x1f,
  OPCODE.mk 0x20 ADDRESS_MODE.Absolute 6 OPNAME.OP_JSR,
  OPCODE.mk 0x21 ADDRESS_MODE.Indirect_X 6 OPNAME.OP_AND,
  OP_FUTURE 0x22,
  OP_FUTURE 0x23,
  OPCODE.mk 0x24 ADDRESS_MODE.ZeroPage 3 OPNAME.OP_BIT,
  OPCODE.mk 0x25 ADDRESS_MODE.ZeroPage 3 OPNAME.OP_AND,
  OPCODE.mk 0x26 ADDRESS_MODE.ZeroPage 5 OPNAME.OP_ROL,
  OP_FUTURE 0x27,
  OPCODE.mk 0x28 ADDRESS_MODE.Implied 4 OPNAME.OP_PLP,
  OPCODE.mk 0x29 ADDRESS_MODE.Immediate 2 OPNAME.OP_AND,
  OPCODE.mk 0x2a ADDRESS_MODE.Implied 2 OPNAME.OP_ROL,
  OP_FUTURE 0x2b,
  OPCODE.mk 0x2c ADDRESS_MODE.Absolute 4 OPNAME.OP_BIT,
  OPCODE.mk 0x2d ADDRESS_MODE.Absolute 2 OPNAME.OP_AND,
  OPCODE.mk 0x2e ADDRESS_MODE.Absolute 6 OPNAME.OP_ROL,
  OP_FUTURE 0x2f,
  OPCODE.mk 0x30 ADDRESS_MODE.Relative 2 OPNAME.OP_BMI,
  OPCODE.mk 0x31 ADDRESS_MODE.Indirect_Y 5 OPNAME.OP_AND,
  OP_FUTURE 0x32,
  OP_FUTURE 0x33,
  OP_FUTURE 0x34,
  OPCODE.mk 0x35 ADDRESS_MODE.ZeroPage_X 4 OPNAME.OP_AND,
  OPCODE.mk 0x36 ADDRESS_MODE.ZeroPage_X 6 OPNAME.OP_ROL,
  OP_FUTURE 0x37,
  OPCODE.mk 0x38 ADDRESS_MODE.Implied 2 OPNAME.OP_SEC,
  OPCODE.mk 0x39 ADDRESS_MODE.Absolute_Y 4 OPNAME.OP_AND,
  OP_FUTURE 0x3a,
  OP_FUTURE 0x3b,
  OP_FUTURE 0x3c,
  OPCODE.mk 0x3d ADDRESS_MODE.Absolute_X 4 OPNAME.OP_AND,
  OPCODE.mk 0x3e ADDRESS_MODE.Absolute_X 7 OPNAME.OP_ROL,
  OP_FUTURE 0x3f,
  OPCODE.mk 0x40 ADDRESS_MODE.Implied 6 OPNAME.OP_RTI,
  OPCODE.mk 0x41 ADDRESS_MODE.Indirect_X 6 OPNAME.OP_EOR,
  OP_FUTURE 0x42,
  OP_FUTURE 0x43,
  OP_FUTURE 0x44,
  OPCODE.mk 0x45 ADDRESS_MODE.ZeroPage 3 OPNAME.OP_EOR,
  OPCODE.mk 0x46 ADDRESS_MODE.ZeroPage 5 OPNAME.OP_LSR,
  OP_FUTURE 0x47,
  OPCODE.mk 0x48 ADDRESS_MODE.Implied 3 OPNAME.OP_PHA,
  OPCODE.mk 0x49 ADDRESS_MODE.Immediate 2 OPNAME.OP_EOR,
  OPCODE.mk 0x4a ADDRESS_MODE.Implied 2 OPNAME.OP_LSR,
  OP_FUTURE 0x4b,
  OPCODE.mk 0x4c ADDRESS_MODE.Absolute 3 OPNAME.OP_JMP,
  OPCODE.mk 0x4d ADDRESS_MODE.Absolute 4 OPNAME.OP_EOR,
  OPCODE.mk 0x4e ADDRESS_MODE.Absolute 6 OPNAME.OP_LSR,
  OP_FUTURE 0x4f,
  OPCODE.mk 0x50 ADDRESS_MODE.Relative 2 OPNAME.OP_BVC,
  OPCODE.mk 0x51 ADDRESS_MODE.Indirect_Y 5 OPNAME.OP_EOR,
  OP_FUTURE 0x52,
  OP_FUTURE 0x53,
  OP_FUTURE 0x54,
  OPCODE.mk 0x55 ADDRESS_MODE.ZeroPage_X 4 OPNAME.OP_EOR,
  OPCODE.mk 0x56 ADDRESS_MODE.ZeroPage_X 6 OPNAME.OP_LSR,
  OP_FUTURE 0x57,
  OPCODE.mk 0x58 ADDRESS_MODE.Implied 2 OPNAME.OP_CLI,
  OPCODE.mk 0x59 ADDRESS_MODE.Absolute_Y 4 OPNAME.OP_EOR,
  OP_FUTURE 0x5a,
  OP_FUTURE 0x5b,
  OP_FUTURE 0x5c,
  OPCODE.mk 0x5d ADDRESS_MODE.Absolute_X 4 OPNAME.OP_EOR,
  OPCODE.mk 0x5e ADDRESS_MODE.Absolute_X 7 OPNAME.OP_LSR,
  OP_FUTURE 0x5f,
  OPCODE.mk 0x60 ADDRESS_MODE.Implied 6 OPNAME.OP_RTS,
  OPCODE.mk 0x61 ADDRESS_MODE.Indirect_X 6 OPNAME.OP_ADC,
  OP_FUTURE 0x62,
  OP_FUTURE 0x63,
  OP_FUTURE 0x64,
  OPCODE.mk 0x65 ADDRESS_MODE.ZeroPage 3 OPNAME.OP_ADC,
  OPCODE.mk 0x66 ADDRESS_MODE.ZeroPage 5 OPNAME.OP_ROR,
  OP_FUTURE 0x67,
  OPCODE.mk 0x68 ADDRESS_MODE.Implied 4 OPNAME.OP_PLA,
  OPCODE.mk 0x69 ADDRESS_MODE.Immediate 2 OPNAME.OP_ADC,
  OPCODE.mk 0x6a ADDRESS_MODE.Implied 2 OPNAME.OP_ROR,
  OP_FUTURE 0x6b,
  OPCODE.mk 0x6c ADDRESS_MODE.Indirect 5 OPNAME.OP_JMP,
  OPCODE.mk 0x6d ADDRESS_MODE.Absolute 4 OPNAME.OP_ADC,
  OPCODE.mk 0x6e ADDRESS_MODE.Absolute 6 OPNAME.OP_ROR,
  OP_FUTURE 0x6f,
  OPCODE.mk 0x70 ADDRESS_MODE.Relative 2 OPNAME.OP_BVS,
  OPCODE.mk 0x71 ADDRESS_MODE.Indirect_Y 5 OPNAME.OP_ADC,
  OP_FUTURE 0x72,
  OP_FUTURE 0x73,
  OP_FUTURE 0x74,
  OPCODE.mk 0x75 ADDRESS_MODE.ZeroPage_X 4 OPNAME.OP_ADC,
  OPCODE.mk 0x76 ADDRESS_MODE.ZeroPage_X 6 OPNAME.OP_ROR,
  OP_FUTURE 0x77,
  OPCODE.mk 0x78 ADDRESS_MODE.Implied 2 OPNAME.OP_SEI,
  OPCODE.mk 0x79 ADDRESS_MODE.Absolute_Y 4 OPNAME.OP_ADC,
  OP_FUTURE 0x7a,
  OP_FUTURE 0x7b,
  OP_FUTURE 0x7c,
  OPCODE.mk 0x7d ADDRESS_MODE.Absolute_X 4 OPNAME.OP_ADC,
  OPCODE.mk 0x7e ADDRESS_MODE.Absolute_X 7 OPNAME.OP_ROR,
  OP_FUTURE 0x7f,
  OP_FUTURE 0x80,
  OPCODE.mk 0x81 ADDRESS_MODE.Indirect_X 6 OPNAME.OP_STA,
  OP_FUTURE 0x82,
  OP_FUTURE 0x83,
  OPCODE.mk 0x84 ADDRESS_MODE.ZeroPage 3 OPNAME.OP_STY,
  OPCODE.mk 0x85 ADDRESS_MODE.ZeroPage 3 OPNAME.OP_STA,
  OPCODE.mk 0x86 ADDRESS_MODE.ZeroPage 3 OPNAME.OP_STX,
  OP_FUTURE 0x87,
  OPCODE.mk 0x88 ADDRESS_MODE.Implied 2 OPNAME.OP_DEY,
  OP_FUTURE 0x89,
  OPCODE.mk 0x8a ADDRESS_MODE.Implied 2 OPNAME.OP_TXA,
  OP_FUTURE 0x8b,
  OPCODE.mk 0x8c ADDRESS_MODE.Absolute 4 OPNAME.OP_STY,
  OPCODE.mk 0x8d ADDRESS_MODE.Absolute 4 OPNAME.OP_STA,
  OPCODE.mk 0x8e ADDRESS_MODE.Absolute 4 OPNAME.OP_STX,
  OP_FUTURE 0x8f,
  OPCODE.mk 0x90 ADDRESS_MODE.Relative 2 OPNAME.OP_BCC,
  OPCODE.mk 0x91 ADDRESS_MODE.Indirect_Y 6 OPNAME.OP_STA,
  OP_FUTURE 0x92,
  OP_FUTURE 0x93,
  OPCODE.mk 0x94 ADDRESS_MODE.ZeroPage_X 4 OPNAME.OP_STY,
  OPCODE.mk 0x95 ADDRESS_MODE.ZeroPage_X 4 OPNAME.OP_STA,
  OPCODE.mk 0x96 ADDRESS_MODE.ZeroPage_Y 4 OPNAME.OP_STX,
  OP_FUTURE 0x97,
  OPCODE.mk 0x98 ADDRESS_MODE.Implied 2 OPNAME.OP_TYA,
  OPCODE.mk 0x99 ADDRESS_MODE.Absolute_Y 5 OPNAME.OP_STA,
  OPCODE.mk 0x9a ADDRESS_MODE.Implied 2 OPNAME.OP_TXS,
  OP_FUTURE 0x9b,
  OP_FUTURE 0x9c,
  OPCODE.mk 0x9d ADDRESS_MODE.Absolute_X 5 OPNAME.OP_STA,
  OP_FUTURE 0x9e,
  OP_FUTURE 0x9f,
  OPCODE.mk 0xa0 ADDRESS_MODE.Immediate 2 OPNAME.OP_LDY,
  OPCODE.mk 0xa1 ADDRESS_MODE.Indirect_X 6 OPNAME.OP_LDA,
  OPCODE.mk 0xa2 ADDRESS_MODE.Immediate 2 OPNAME.OP_LDX,
  OP_FUTURE 0xa3,
  OPCODE.mk 0xa4 ADDRESS_MODE.ZeroPage 2 OPNAME.OP_LDY,
  OPCODE.mk 0xa5 ADDRESS_MODE.ZeroPage 2 OPNAME.OP_LDA,
  OPCODE.mk 0xa6 ADDRESS_MODE.ZeroPage 2 OPNAME.OP_LDX,
  OP_FUTURE 0xa7,
  OPCODE.mk 0xa8 ADDRESS_MODE.Implied 2 OPNAME.OP_TAY,
  OPCODE.mk 0xa9 ADDRESS_MODE.Immediate 2 OPNAME.OP_LDA,
  OPCODE.mk 0xaa ADDRESS_MODE.Implied 2 OPNAME.OP_TAX,
  OP_FUTURE 0xab,
  OPCODE.mk 0xac ADDRESS_MODE.Absolute 4 OPNAME.OP_LDY,
  OPCODE.mk 0xad ADDRESS_MODE.Absolute 4 OPNAME.OP_LDA,
  OPCODE.mk 0xae ADDRESS_MODE.Absolute 4 OPNAME.OP_LDX,
  OP_FUTURE 0xaf,
  OPCODE.mk 0xb0 ADDRESS_MODE.Relative 2 OPNAME.OP_BCS,
  OPCODE.mk 0xb1 ADDRESS_MODE.Absolute_Y 5 OPNAME.OP_LDA,
  OP_FUTURE 0xb2,
  OP_FUTURE 0xb3,
  OPCODE.mk 0xb4 ADDRESS_MODE.ZeroPage_X 4 OPNAME.OP_LDY,
  OPCODE.mk 0xb5 ADDRESS_MODE.ZeroPage_X 4 OPNAME.OP_LDA,
  OPCODE.mk 0xb6 ADDRESS_MODE.ZeroPage_Y 4 OPNAME.OP_LDX,
  OP_FUTURE 0xb7,
  OPCODE.mk 0xb8 ADDRESS_MODE.Implied 2 OPNAME.OP_CLV,
  OPCODE.mk 0xb9 ADDRESS_MODE.Absolute_Y 4 OPNAME.OP_LDA,
  OPCODE.mk 0xba ADDRESS_MODE.Implied 2 OPNAME.OP_TSX,
  OP_FUTURE 0xbb,
  OPCODE.mk 0xbc ADDRESS_MODE.Absolute_X 4 OPNAME.OP_LDY,
  OPCODE.mk 0xbd ADDRESS_MODE.Absolute_X 4 OPNAME.OP_LDA,
  OPCODE.mk 0xbe ADDRESS_MODE.Absolute_Y 4 OPNAME.OP_LDX,
  OP_FUTURE 0xbf,
  OPCODE.mk 0xc0 ADDRESS_MODE.Immediate 2 OPNAME.OP_CPY,
  OPCODE.mk 0xc1 ADDRESS_MODE.Indirect_X 6 OPNAME.OP_CMP,
  OP_FUTURE 0xc2,
  OP_FUTURE 0xc3,
  OPCODE.mk 0xc4 ADDRESS_MODE.ZeroPage 3 OPNAME.OP_CPY,
  OPCODE.mk 0xc5 ADDRESS_MODE.ZeroPage 3 OPNAME.OP_CMP,
  OPCODE.mk 0xc6 ADDRESS_MODE.ZeroPage 5 OPNAME.OP_DEC,
  OP_FUTURE 0xc7,
  OPCODE.mk 0xc8 ADDRESS_MODE.Implied 2 OPNAME.OP_INY,
  OPCODE.mk 0xc9 ADDRESS_MODE.Immediate 2 OPNAME.OP_CMP,
  OPCODE.mk 0xca ADDRESS_MODE.Implied 2 OPNAME.OP_DEX,
  OP_FUTURE 0xcb,
  OPCODE.mk 0xcc ADDRESS_MODE.Absolute 4 OPNAME.OP_CPY,
  OPCODE.mk 0xcd ADDRESS_MODE.Absolute 4 OPNAME.OP_CMP,
  OPCODE.mk 0xce ADDRESS_MODE.Absolute 6 OPNAME.OP_DEC,
  OP_FUTURE 0xcf,
  OPCODE.mk 0xd0 ADDRESS_MODE.Relative 2 OPNAME.OP_BNE,
  OPCODE.mk 0xd1 ADDRESS_MODE.Indirect_Y 5 OPNAME.OP_CMP,
  OP_FUTURE 0xd2,
  OP_FUTURE 0xd3,
  OP_FUTURE 0xd4,
  OPCODE.mk 0xd5 ADDRESS_MODE.ZeroPage_X 4 OPNAME.OP_CMP,
  OPCODE.mk 0xd6 ADDRESS_MODE.ZeroPage_X 6 OPNAME.OP_DEC,
  OP_FUTURE 0xd7,
  OPCODE.mk 0xd8 ADDRESS_MODE.Implied 2 OPNAME.OP_CLD,
  OPCODE.mk 0xd9 ADDRESS_MODE.Absolute_Y 4 OPNAME.OP_CMP,
  OP_FUTURE 0xda,
  OP_FUTURE 0xdb,
  OP_FUTURE 0xdc,
  OPCODE.mk 0xdd ADDRESS_MODE.Absolute_X 4 OPNAME.OP_CMP,
  OPCODE.mk 0xde ADDRESS_MODE.Absolute_X 7 OPNAME.OP_DEC,
  OP_FUTURE 0xdf,
  OPCODE.mk 0xe0 ADDRESS_MODE.Immediate 2 OPNAME.OP_CPX,
  OPCODE.mk 0xe1 ADDRESS_MODE.Indirect_X 6 OPNAME.OP_SBC,
  OP_FUTURE 0xd2,
  OP_FUTURE 0xe3,
  OPCODE.mk 0xe4 ADDRESS_MODE.ZeroPage 3 OPNAME.OP_CPX,
  OPCODE.mk 0xe5 ADDRESS_MODE.ZeroPage 3 OPNAME.OP_SBC,
  OPCODE.mk 0xe6 ADDRESS_MODE.ZeroPage 5 OPNAME.OP_INC,
  OP_FUTURE 0xe7,
  OPCODE.mk 0xe8 ADDRESS_MODE.Implied 2 OPNAME.OP_INX,
  OPCODE.mk 0xe9 ADDRESS_MODE.Immediate 2 OPNAME.OP_SBC,
  OPCODE.mk 0xea ADDRESS_MODE.Implied 2 OPNAME.OP_NOP,
  OP_FUTURE 0xeb,
  OPCODE.mk 0xec ADDRESS_MODE.Absolute 4 OPNAME.OP_CPX,
  OPCODE.mk 0xed ADDRESS_MODE.Absolute 4 OPNAME.OP_SBC,
  OPCODE.mk 0xee ADDRESS_MODE.Absolute 6 OPNAME.OP_INC,
  OP_FUTURE 0xef,
  OPCODE.mk 0xf0 ADDRESS_MODE.Relative 2 OPNAME.OP_BEQ,
  OPCODE.mk 0xf1 ADDRESS_MODE.Indirect_Y 5 OPNAME.OP_SBC,
  OP_FUTURE 0xf2,
  OP_FUTURE 0xf3,
  OP_FUTURE 0xf4,
  OPCODE.mk 0xf5 ADDRESS_MODE.ZeroPage_X 4 OPNAME.OP_SBC,
  OPCODE.mk 0xf6 ADDRESS_MODE.ZeroPage_X 6 OPNAME.OP_INC,
  OP_FUTURE 0xf7,
  OPCODE.mk 0xf8 ADDRESS_MODE.Implied 2 OPNAME.OP_SED,
  OPCODE.mk 0xf9 ADDRESS_MODE.Absolute_Y 4 OPNAME.OP_SBC,
  OP_FUTURE 0xfa,
  OP_FUTURE 0xfb,
  OP_FUTURE 0xfc,
  OPCODE.mk 0xfd ADDRESS_MODE.Absolute_X 4 OPNAME.OP_SBC,
  OPCODE.mk 0xfe ADDRESS_MODE.Absolute_X 7 OPNAME.OP_INC,
  OP_FUTURE 0xff]

/-- The entry `__ops[opcode]`; `opcode` is an `unsigned char`, so the index is
always inside the table. -/
def opsAt (opcode : Nat) : OPCODE := __ops.getD (opcode % 256) (OP_FUTURE 0)

/-- The whole mutable state the functions of `cpu.c` act on: `global_cpu`, the
memory behind the bus functions, and the `static int interrupt` declared inside
`Cpu_Step` (line 705), which starts at `0` and survives between calls; it is a
32-bit `int`, held as its signed value. -/
structure State where
  global_cpu : CPU
  mem : Memory
  interrupt : Int

/-! ## Flag and stack helpers -/

/-- `Cpu_SetZ(unsigned char b)` (lines 345-348). -/
def Cpu_SetZ (b : Nat) (st : State) : State :=
  { st with global_cpu := { st.global_cpu with Z := if toByte b = 0 then 1 else 0 } }

/-- `Cpu_SetN(unsigned char b)` (lines 350-353). -/
def Cpu_SetN (b : Nat) (st : State) : State :=
  { st with global_cpu := { st.global_cpu with N := if toByte b &&& 0x80 = 0 then 0 else 1 } }

/-- `Cpu_PushB(unsigned char b)` (lines 358-362): write at `0x100|SP` with `SP`
promoted to `int`, the address converted to `uint16_t` by the bus call; then
`SP--` on the `char`. -/
def Cpu_PushB (b : Nat) (st : State) : State :=
  let m := Mem_WriteB st.mem (toWord (0x100 ||| promoteChar st.global_cpu.SP)) (toByte b)
  { st with
    mem := m
    global_cpu := { st.global_cpu with SP := toByte (intSub (promoteChar st.global_cpu.SP) 1) } }

/-- `Cpu_PushW(uint16_t w)` (lines 367-373). -/
def Cpu_PushW (w : Nat) (st : State) : State :=
  let hi := toByte (toWord w >>> 8)
  let lo := toByte (toWord w &&& 0xff)
  Cpu_PushB lo (Cpu_PushB hi st)

/-- `Cpu_SetFlags(unsigned char flags)` (lines 664-674). -/
def Cpu_SetFlags (flags : Nat) (st : State) : State :=
  { st with global_cpu := { st.global_cpu with
      C := (toByte flags >>> 0) &&& 1
      Z := (toByte flags >>> 1) &&& 1
      I := (toByte flags >>> 2) &&& 1
      D := (toByte flags >>> 3) &&& 1
      B := (toByte flags >>> 4) &&& 1
      U := (toByte flags >>> 5) &&& 1
      V := (toByte flags >>> 6) &&& 1
      N := (toByte flags >>> 7) &&& 1 } }

/-- `Cpu_GetFlags()` (lines 676-688): each `flags |= f << k` promotes the `char`
flag to `int`, shifts, ors and converts back to `unsigned char`. -/
def Cpu_GetFlags (st : State) : Nat :=
  let flags := 0
  let flags := toByte (flags ||| intShl (promoteChar st.global_cpu.C) 0)
  let flags := toByte (flags ||| intShl (promoteChar st.global_cpu.Z) 1)
  let flags := toByte (flags ||| intShl (promoteChar st.global_cpu.I) 2)
  let flags := toByte (flags ||| intShl (promoteChar st.global_cpu.D) 3)
  let flags := toByte (flags ||| intShl (promoteChar st.global_cpu.B) 4)
  let flags := toByte (flags ||| intShl (promoteChar st.global_cpu.U) 5)
  let flags := toByte (flags ||| intShl (promoteChar st.global_cpu.V) 6)
  let flags := toByte (flags ||| intShl (promoteChar st.global_cpu.N) 7)
  flags

/-! ## Instruction handlers -/

/-- `Cpu_Handle_OP_SEI` (lines 401-405). -/
def Cpu_Handle_OP_SEI (_address : Nat) (st : State) : State :=
  { st with global_cpu := { st.global_cpu with I := 1 } }

/-- `Cpu_Handle_OP_CLD` (lines 410-414). -/
def Cpu_Handle_OP_CLD (_address : Nat) (st : State) : State :=
  { st with global_cpu := { st.global_cpu with D := 0 } }

/-- `Cpu_Handle_OP_LDX` (lines 419-424). -/
def Cpu_Handle_OP_LDX (address : Nat) (st : State) : State :=
  let st := { st with global_cpu := { st.global_cpu with X := Mem_ReadB st.mem address } }
  let st := Cpu_SetZ st.global_cpu.X st
  Cpu_SetN st.global_cpu.X st

/-- `Cpu_Handle_OP_LDY` (lines 429-434). -/
def Cpu_Handle_OP_LDY (address : Nat) (st : State) : State :=
  let st := { st with global_cpu := { st.global_cpu with Y := Mem_ReadB st.mem address } }
  let st := Cpu_SetZ st.global_cpu.Y st
  Cpu_SetN st.global_cpu.Y st

/-- `Cpu_Handle_OP_TXS` (lines 439-442). -/
def Cpu_Handle_OP_TXS (_address : Nat) (st : State) : State :=
  { st with global_cpu := { st.global_cpu with SP := st.global_cpu.X } }

/-- `Cpu_Handle_OP_LDA` (lines 447-453). -/
def Cpu_Handle_OP_LDA (address : Nat) (st : State) : State :=
  let st := { st with global_cpu := { st.global_cpu with A := Mem_ReadB st.mem address } }
  let st := Cpu_SetZ st.global_cpu.A st
  Cpu_SetN st.global_cpu.A st

/-- `Cpu_Handle_OP_BPL` (lines 458-466). -/
def Cpu_Handle_OP_BPL (address : Nat) (st : State) : State :=
  if promoteChar st.global_cpu.N = 0 then
    { st with global_cpu := { st.global_cpu with PC := toWord address } }
  else st

/-- `Cpu_Handle_OP_ORA` (lines 471-476). -/
def Cpu_Handle_OP_ORA (address : Nat) (st : State) : State :=
  let a := toByte (promoteChar st.global_cpu.A ||| Mem_ReadB st.mem address)
  let st := { st with global_cpu := { st.global_cpu with A := a } }
  let st := Cpu_SetZ st.global_cpu.A st
  Cpu_SetN st.global_cpu.A st

/-- `Cpu_Handle_OP_BNE` (lines 481-489). -/
def Cpu_Handle_OP_BNE (address : Nat) (st : State) : State :=
  if promoteChar st.global_cpu.Z = 0 then
    { st with global_cpu := { st.global_cpu with PC := toWord address } }
  else st

/-- `Cpu_Handle_OP_JSR` (lines 494-498): `PC - 1` is an `int`, converted to the
`uint16_t` parameter of `Cpu_PushW`. -/
def Cpu_Handle_OP_JSR (address : Nat) (st : State) : State :=
  let st := Cpu_PushW (toWord (intSub st.global_cpu.PC 1)) st
  { st with global_cpu := { st.global_cpu with PC := toWord address } }

/-- `Cpu_Handle_OP_PHP` (lines 503-507). -/
def Cpu_Handle_OP_PHP (_address : Nat) (st : State) : State :=
  Cpu_PushB (toByte (Cpu_GetFlags st ||| 0x10)) st

/-- `Cpu_Handle_OP_BRK` (lines 512-518). -/
def Cpu_Handle_OP_BRK (address : Nat) (st : State) : State :=
  let st := Cpu_PushW st.global_cpu.PC st
  let st := Cpu_Handle_OP_PHP address st
  let st := Cpu_Handle_OP_SEI address st
  { st with global_cpu := { st.global_cpu with PC := Mem_ReadW st.mem 0xFFFE } }

/-- `Cpu_Handle_OP_INC` (lines 523-529). -/
def Cpu_Handle_OP_INC (address : Nat) (st : State) : State :=
  let b := toByte (intAdd (Mem_ReadB st.mem address) 1)
  let st := { st with mem := Mem_WriteB st.mem address b }
  let st := Cpu_SetZ b st
  Cpu_SetN b st

/-- `Cpu_Handle_OP_STA` (lines 534-537). -/
def Cpu_Handle_OP_STA (address : Nat) (st : State) : State :=
  { st with mem := Mem_WriteB st.mem address (toByte st.global_cpu.A) }

/-- `Cpu_Handle_OP_STX` (lines 542-545). -/
def Cpu_Handle_OP_STX (address : Nat) (st : State) : State :=
  { st with mem := Mem_WriteB st.mem address (toByte st.global_cpu.X) }

/-- `Cpu_Handle_OP_DEX` (lines 550-555). -/
def Cpu_Handle_OP_DEX (_address : Nat) (st : State) : State :=
  let x := toByte (intSub (promoteChar st.global_cpu.X) 1)
  let st := { st with global_cpu := { st.global_cpu with X := x } }
  let st := Cpu_SetZ st.global_cpu.X st
  Cpu_SetN st.global_cpu.X st

/-- `Cpu_Handle_OP_DEY` (lines 560-565). -/
def Cpu_Handle_OP_DEY (_address : Nat) (st : State) : State :=
  let y := toByte (intSub (promoteChar st.global_cpu.Y) 1)
  let st := { st with global_cpu := { st.global_cpu with Y := y } }
  let st := Cpu_SetZ st.global_cpu.Y st
  Cpu_SetN st.global_cpu.Y st

/-- `Cpu_Handle_OP(name, address)` (lines 572-642): the `strcmp` chain; the final
`else` only prints `UnHandled OP`. -/
def Cpu_Handle_OP (name : OPNAME) (address : Nat) (st : State) : State :=
  if name = .OP_SEI then Cpu_Handle_OP_SEI address st
  else if name = .OP_CLD then Cpu_Handle_OP_CLD address st
  else if name = .OP_LDA then Cpu_Handle_OP_LDA address st
  else if name = .OP_LDX then Cpu_Handle_OP_LDX address st
  else if name = .OP_LDY then Cpu_Handle_OP_LDY address st
  else if name = .OP_TXS then Cpu_Handle_OP_TXS address st
  else if name = .OP_BPL then Cpu_Handle_OP_BPL address st
  else if name = .OP_ORA then Cpu_Handle_OP_ORA address st
  else if name = .OP_BNE then Cpu_Handle_OP_BNE address st
  else if name = .OP_JSR then Cpu_Handle_OP_JSR address st
  else if name = .OP_BRK then Cpu_Handle_OP_BRK address st
  else if name = .OP_INC then Cpu_Handle_OP_INC address st
  else if name = .OP_STA then Cpu_Handle_OP_STA address st
  else if name = .OP_STX then Cpu_Handle_OP_STX address st
  else if name = .OP_DEX then Cpu_Handle_OP_DEX address st
  else if name = .OP_DEY then Cpu_Handle_OP_DEY address st
  else st

/-! ## Interrupt entry points, reset and step -/

/-- `Cpu_Handle_IntNMI` (lines 644-652). -/
def Cpu_Handle_IntNMI (st : State) : State :=
  let st := Cpu_PushW st.global_cpu.PC st
  let st := Cpu_Handle_OP_PHP 0 st
  let st := { st with global_cpu := { st.global_cpu with PC := Mem_ReadW st.mem 0xFFFA } }
  { st with global_cpu := { st.global_cpu with I := 1 } }

/-- `Cpu_Handle_IntIRQ` (lines 654-662). -/
def Cpu_Handle_IntIRQ (st : State) : State :=
  let st := Cpu_PushW st.global_cpu.PC st
  let st := Cpu_Handle_OP_PHP 0 st
  let st := { st with global_cpu := { st.global_cpu with PC := Mem_ReadW st.mem 0xFFFE } }
  { st with global_cpu := { st.global_cpu with I := 1 } }

/-- `Cpu_Init` (lines 690-696): `memset` to zero, `PC` from the reset vector,
`SP = 0xFD` converted to `char`, `Cpu_SetFlags(0x24)`. -/
def Cpu_Init (st : State) : State :=
  let st := { st with global_cpu := ⟨0, 0, 0, 0, 0, 0, 0, 0, 0, 0, 0, 0, 0⟩ }
  let st := { st with global_cpu := { st.global_cpu with PC := Mem_ReadW st.mem 0xFFFC } }
  let st := { st with global_cpu := { st.global_cpu with SP := toByte 0xFD } }
  Cpu_SetFlags 0x24 st

/-- The value of the local `uint16_t address` of `Cpu_Step` when the handler is
called (lines 708-768).  No branch assigns it for `Future`, `Indirect`,
`Indirect_X` and `Indirect_Y`: it then holds whatever the stack slot held,
given here as `stale`.  In `Absolute_X` and `Absolute_Y` the source statement is
`address = Mem_ReadB(PC + 1); + global_cpu.X;`, whose second half is an
expression statement without effect. -/
def Cpu_Step_address (stale : Nat) (st : State) (OP : OPCODE) : Nat :=
  let cpu := st.global_cpu
  if OP.mode = .ZeroPage then
    toWord (Mem_ReadB st.mem (toWord (intAdd cpu.PC 1)))
  else if OP.mode = .ZeroPage_X then
    toWord (intAdd (Mem_ReadB st.mem (toWord (intAdd cpu.PC 1))) (promoteChar cpu.X))
  else if OP.mode = .ZeroPage_Y then
    toWord (intAdd (Mem_ReadB st.mem (toWord (intAdd cpu.PC 1))) (promoteChar cpu.Y))
  else if OP.mode = .Absolute then
    toWord (Mem_ReadW st.mem (toWord (intAdd cpu.PC 1)))
  else if OP.mode = .Absolute_X then
    toWord (Mem_ReadB st.mem (toWord (intAdd cpu.PC 1)))
  else if OP.mode = .Absolute_Y then
    toWord (Mem_ReadB st.mem (toWord (intAdd cpu.PC 1)))
  else if OP.mode = .Indirect then
    toWord stale
  else if OP.mode = .Indirect_X then
    toWord stale
  else if OP.mode = .Indirect_Y then
    toWord stale
  else if OP.mode = .Implied then
    0
  else if OP.mode = .Accumulator then
    0
  else if OP.mode = .Immediate then
    toWord (intAdd cpu.PC 1)
  else if OP.mode = .Relative then
    let offset := Mem_ReadB st.mem (toWord (intAdd cpu.PC 1))
    if offset < 0x80 then
      toWord (intAdd (intAdd cpu.PC 2) offset)
    else
      toWord (intSub (intAdd (intAdd cpu.PC 2) offset) 0x100)
  else
    toWord stale

/-- `Cpu_Step` (lines 699-789).  Returns `OP->cycles` and the new state.  In
`(interrupt++)%17 == 0` the old value of the `static int` counter is tested with
C's remainder (`Int.tmod`, truncating toward zero) and the counter is
incremented as an `int` (`intIncr`). -/
def Cpu_Step (stale : Nat) (st : State) : Nat × State :=
  let opcode := Mem_ReadB st.mem st.global_cpu.PC
  let OP := opsAt opcode
  let address := Cpu_Step_address stale st OP
  let st := { st with global_cpu := { st.global_cpu with
    PC := toWord (intAdd st.global_cpu.PC (OPBytes.getD OP.mode.toNat 0)) } }
  let st := Cpu_Handle_OP OP.name address st
  let counter := st.interrupt
  let st := { st with interrupt := intIncr counter }
  let st :=
    if Int.tmod counter 17 = 0 then { st with mem := Mem_WriteB st.mem 0x2002 0x80 }
    else { st with mem := Mem_WriteB st.mem 0x2002 0x0 }
  (OP.cycles, st)

/-! ## Auxiliary definitions used to state the results -/

/-- The state `Cpu_Step` hands to the handler: `PC` advanced by the byte length
of the instruction found at `PC` (line 770). -/
def advanced (st : State) : State :=
  { st with global_cpu := { st.global_cpu with
    PC := toWord (intAdd st.global_cpu.PC
      (OPBytes.getD (opsAt (Mem_ReadB st.mem st.global_cpu.PC)).mode.toNat 0)) } }

/-- The state right after the handler call of `Cpu_Step` (line 771), before the
write to `0x2002`. -/
def executed (stale : Nat) (st : State) : State :=
  Cpu_Handle_OP (opsAt (Mem_ReadB st.mem st.global_cpu.PC)).name
    (Cpu_Step_address stale st (opsAt (Mem_ReadB st.mem st.global_cpu.PC))) (advanced st)

/-- A memory given by a finite list of `(address, byte)` cells; every other cell
holds `fill`. -/
def memOf (cells : List (Nat × Nat)) (fill : Nat) : Memory :=
  fun a => match cells.find? (fun c => c.1 == a) with
    | some c => c.2
    | none => fill

/-- The registers right after reset with `PC = pc`: `SP = 0xFD`, status `0x24`. -/
def resetCpu (pc : Nat) : CPU :=
  { PC := pc, SP := 0xFD, A := 0, X := 0, Y := 0,
    C := 0, Z := 0, I := 1, D := 0, B := 0, U := 1, V := 0, N := 0 }

/-- Example: `LDA #0x80` at `0xC000`, CPU as after reset. -/
def exLda : State := ⟨resetCpu 0xC000, memOf [(0xC000, 0xA9), (0xC001, 0x80)] 0, 0⟩

/-- A state with every register, flag and memory cell zero. -/
def zeroState : State := ⟨⟨0, 0, 0, 0, 0, 0, 0, 0, 0, 0, 0, 0, 0⟩, fun _ => 0, 0⟩

/-- Example: the unassigned opcode `0x02` at `0xC000`, CPU as after reset. -/
def exFuture : State := ⟨resetCpu 0xC000, memOf [(0xC000, 0x02)] 0, 0⟩

/-- Example: CPU as after reset (`SP = 0xFD`), memory all zero. -/
def exReset : State := ⟨resetCpu 0xC000, memOf [] 0, 0⟩

/-- Example: `JSR $D000` at `0xC000` with an `RTS` at `0xD000`, CPU as after reset
but with `SP = 0x7F`. -/
def exJsr : State :=
  ⟨{ resetCpu 0xC000 with SP := 0x7F },
   memOf [(0xC000, 0x20), (0xC001, 0x00), (0xC002, 0xD0), (0xD000, 0x60)] 0, 0⟩

/-- Example: `BRK` at `0x1000`, IRQ/BRK vector `0x1234`, CPU as after reset but
with `SP = 0x7F`. -/
def exBrk : State :=
  ⟨{ resetCpu 0x1000 with SP := 0x7F },
   memOf [(0x1000, 0x00), (0xFFFE, 0x34), (0xFFFF, 0x12)] 0, 0⟩

/-- The flag tested by the two branch opcodes that have a handler: `Z` for `BNE`
(`0xD0`), `N` for `BPL` (`0x10`). -/
def testedFlag (opcode : Nat) (c : CPU) : Nat := if opcode = 0xD0 then c.Z else c.N

/-- The branch target as the specification words it (section 4.2, `Relative`): the
displacement `d` is read as two's complement (`d - 256` when `d >= 128`) and added
to the address after the two-byte branch, modulo `65536`. -/
def relativeTarget (p d : Nat) : Int :=
  ((p : Int) + 2 + (if d < 128 then (d : Int) else (d : Int) - 256)) % 65536

/-- Example: `BNE` with displacement `0xFC` (`-4`) at `0xC000`, `Z = 0`. -/
def exBne : State := ⟨resetCpu 0xC000, memOf [(0xC000, 0xD0), (0xC001, 0xFC)] 0, 0⟩

/-- Example: `BPL` with displacement `0x10` at `0xC000`, `N = 1` (branch not taken). -/
def exBpl : State :=
  ⟨{ resetCpu 0xC000 with N := 1 }, memOf [(0xC000, 0x10), (0xC001, 0x10)] 0, 0⟩

/-- Example: `LDA $FF,X` (`0xB5 0xFF`) at `0xC000` with `X = 1`; the cell `0x0000`
holds `0x11` and the cell `0x0100` holds `0x22`. -/
def exZpx : State :=
  ⟨{ resetCpu 0xC000 with X := 1 },
   memOf [(0xC000, 0xB5), (0xC001, 0xFF), (0x0000, 0x11), (0x0100, 0x22)] 0, 0⟩

/-- Example: `LDX $FF,Y` (`0xB6 0xFF`) at `0xC000` with `Y = 1`; the cell `0x0000`
holds `0x11` and the cell `0x0100` holds `0x22`. -/
def exZpy : State :=
  ⟨{ resetCpu 0xC000 with Y := 1 },
   memOf [(0xC000, 0xB6), (0xC001, 0xFF), (0x0000, 0x11), (0x0100, 0x22)] 0, 0⟩

/-- Example: `LDA $1234,X` (`0xBD 0x34 0x12`) at `0xC000` with `X = 1`; the cell
`0x1235` holds `0x55` and the cell `0x0034` holds `0x77`. -/
def exAbsX : State :=
  ⟨{ resetCpu 0xC000 with X := 1 },
   memOf [(0xC000, 0xBD), (0xC001, 0x34), (0xC002, 0x12), (0x1235, 0x55), (0x0034, 0x77)] 0, 0⟩

/-- Example: `LDA $1234,Y` (`0xB9 0x34 0x12`) at `0xC000` with `Y = 1`; the cell
`0x1235` holds `0x55` and the cell `0x0034` holds `0x77`. -/
def exAbsY : State :=
  ⟨{ resetCpu 0xC000 with Y := 1 },
   memOf [(0xC000, 0xB9), (0xC001, 0x34), (0xC002, 0x12), (0x1235, 0x55), (0x0034, 0x77)] 0, 0⟩

/-- Example: `LDA $12FF,X` (`0xBD 0xFF 0x12`) at `0xC000` with `X = 1`: base
address `0x12FF`, indexed address `0x1300` in the next page. -/
def exPageCross : State :=
  ⟨{ resetCpu 0xC000 with X := 1 },
   memOf [(0xC000, 0xBD), (0xC001, 0xFF), (0xC002, 0x12)] 0, 0⟩

/-- Example: an interrupt arrives at `PC = 0x1234` with `SP = 0x7F`, status `0x24`
(`I = 1`, `B = 0`); the NMI vector holds `0x8000`, the IRQ vector `0x9000`. -/
def exInt : State :=
  ⟨{ resetCpu 0x1234 with SP := 0x7F },
   memOf [(0xFFFA, 0x00), (0xFFFB, 0x80), (0xFFFE, 0x00), (0xFFFF, 0x90)] 0, 0⟩

/-- The instruction length the specification documents for each addressing mode
(section 3 and claim C15): 1 byte for `Implied`, `Accumulator` and unimplemented
entries; 2 for the zero-page, indexed-indirect, immediate and relative modes; 3
for the absolute modes and `Indirect`. -/
def documentedLength : ADDRESS_MODE → Nat
  | .Implied => 1
  | .Accumulator => 1
  | .Future => 1
  | .ZeroPage => 2
  | .ZeroPage_X => 2
  | .ZeroPage_Y => 2
  | .Indirect_X => 2
  | .Indirect_Y => 2
  | .Immediate => 2
  | .Relative => 2
  | .Absolute => 3
  | .Absolute_X => 3
  | .Absolute_Y => 3
  | .Indirect => 3

/-- Example: opcode `0xB1` (`LDA ($10),Y`) at `0xC000`. -/
def exIndY : State := ⟨resetCpu 0xC000, memOf [(0xC000, 0xB1), (0xC001, 0x10)] 0, 0⟩

/-- The state after a sequence of `Cpu_Step` calls, one per element of `stales`
(each element is the stale content of the local `address` for that call). -/
def runSteps : List Nat → State → State
  | [], st => st
  | stale :: rest, st => runSteps rest (Cpu_Step stale st).2

/-- Each of the eight flags holds `0` or `1`. -/
def flagsBinary (c : CPU) : Prop :=
  c.C ≤ 1 ∧ c.Z ≤ 1 ∧ c.I ≤ 1 ∧ c.D ≤ 1 ∧ c.B ≤ 1 ∧ c.U ≤ 1 ∧ c.V ≤ 1 ∧ c.N ≤ 1

/-- The states reachable from `Cpu_Init` by any sequence of `Cpu_Step`,
`Cpu_Handle_IntNMI` and `Cpu_Handle_IntIRQ` calls.  `Cpu_Init` may run on any
memory, and each `Cpu_Step` may find any stale value in its local `address`. -/
inductive Reachable : State → Prop where
  | init (st : State) : Reachable (Cpu_Init st)
  | step (stale : Nat) (st : State) : Reachable st → Reachable (Cpu_Step stale st).2
  | nmi (st : State) : Reachable st → Reachable (Cpu_Handle_IntNMI st)
  | irq (st : State) : Reachable st → Reachable (Cpu_Handle_IntIRQ st)

/-- A state that holds the given eight flags and zero everywhere else. -/
def flagsState (c z i d b u v n : Nat) : State :=
  ⟨⟨0, 0, 0, 0, 0, c, z, i, d, b, u, v, n⟩, fun _ => 0, 0⟩

/-- The signed value a 32-bit `int` holds for the mathematical integer `i` after
two's-complement wrap-around. -/
@[irreducible] def toInt32 (i : Int) : Int :=
  (2147483648 + i) % 4294967296 - 2147483648

/-! ## General facts about the embedding -/

theorem Mem_ReadB_lt (m : Memory) (a : Nat) : Mem_ReadB m a < 256 := by
  unfold Mem_ReadB
  omega

theorem Mem_ReadB_next (m : Memory) (a : Nat) :
    Mem_ReadB m (toWord (intAdd a 1)) = Mem_ReadB m (a + 1) := by
  unfold Mem_ReadB toWord intAdd
  have h : (a + 1) % 4294967296 % 65536 % 65536 = (a + 1) % 65536 := by omega
  rw [h]

theorem Cpu_Step_global_cpu (stale : Nat) (st : State) :
    (Cpu_Step stale st).2.global_cpu = (executed stale st).global_cpu := by
  unfold Cpu_Step executed advanced
  simp only []
  split <;> rfl

/-- C's remainder `i % 17` (truncating toward zero) is zero exactly when the
Euclidean remainder is: both say that 17 divides `i`. -/
theorem tmod_seventeen_eq_zero (i : Int) : Int.tmod i 17 = 0 ↔ i % 17 = 0 :=
  ⟨fun h => Int.emod_eq_zero_of_dvd (Int.dvd_of_tmod_eq_zero h),
   fun h => Int.tmod_eq_zero_of_dvd (Int.dvd_of_emod_eq_zero h)⟩

theorem Cpu_Step_mem (stale : Nat) (st : State) :
    (Cpu_Step stale st).2.mem =
      Mem_WriteB (executed stale st).mem 0x2002
        (if (executed stale st).interrupt % 17 = 0 then 0x80 else 0x0) := by
  unfold Cpu_Step executed advanced
  simp only [tmod_seventeen_eq_zero]
  split <;> rfl

theorem Cpu_Step_cycles (stale : Nat) (st : State) :
    (Cpu_Step stale st).1 = (opsAt (Mem_ReadB st.mem st.global_cpu.PC)).cycles := rfl

theorem byte_bit7 : ∀ v, v < 256 → ((v &&& 0x80 = 0) ↔ ¬ (v.testBit 7 = true)) := by
  decide!

/-! ## C1: LDA immediate -/

/-- C1: if the bytes at `PC` and `PC+1` are `0xA9` and `v` (LDA #v), then after one
`Cpu_Step` the accumulator holds `v`, `Z` is `1` exactly when `v = 0` (and `0`
otherwise), and `N` is `1` exactly when bit 7 of `v` is set (and `0` otherwise). -/
theorem C1_lda_immediate (stale : Nat) (st : State) (v : Nat)
    (h0 : Mem_ReadB st.mem st.global_cpu.PC = 0xA9)
    (h1 : Mem_ReadB st.mem (st.global_cpu.PC + 1) = v) :
    (Cpu_Step stale st).2.global_cpu.A = v ∧
    ((Cpu_Step stale st).2.global_cpu.Z = 1 ↔ v = 0) ∧
    ((Cpu_Step stale st).2.global_cpu.N = 1 ↔ v.testBit 7 = true) ∧
    (Cpu_Step stale st).2.global_cpu.Z = (if v = 0 then 1 else 0) ∧
    (Cpu_Step stale st).2.global_cpu.N = (if v.testBit 7 = true then 1 else 0) := by
  have hv : v < 256 := h1 ▸ Mem_ReadB_lt _ _
  have hop : opsAt 0xA9 = ⟨0xa9, .Immediate, 2, .OP_LDA⟩ := by decide!
  have hb := byte_bit7 v hv
  have hm : v % 256 = v := Nat.mod_eq_of_lt hv
  rw [Cpu_Step_global_cpu]
  simp only [executed, advanced, h0, hop, Cpu_Step_address]
  simp [Cpu_Handle_OP, Cpu_Handle_OP_LDA, Cpu_SetZ, Cpu_SetN, Mem_ReadB_next, h1, toByte, hm]
  by_cases hbit : v.testBit 7 = true
  · have hne : ¬ (v &&& 128 = 0) := fun h => (hb.mp h) hbit
    simp [hbit, hne]
  · have he : v &&& 128 = 0 := hb.mpr hbit
    simp [hbit, he]

/-- Witness for C1: `LDA #0x80` from the reset state gives `A = 0x80`, `Z = 0`, `N = 1`. -/
theorem C1_lda_immediate_witness :
    Mem_ReadB exLda.mem exLda.global_cpu.PC = 0xA9 ∧
    Mem_ReadB exLda.mem (exLda.global_cpu.PC + 1) = 0x80 ∧
    (Cpu_Step 0 exLda).2.global_cpu.A = 0x80 ∧
    (Cpu_Step 0 exLda).2.global_cpu.Z = 0 ∧
    (Cpu_Step 0 exLda).2.global_cpu.N = 1 := by
  have h := C1_lda_immediate 0 exLda 0x80 (by decide!) (by decide!)
  refine ⟨by decide!, by decide!, h.1, ?_, ?_⟩
  · rw [h.2.2.2.1]; decide!
  · rw [h.2.2.2.2]; decide!

/-! ## C2: status byte round trip -/

theorem Cpu_GetFlags_SetFlags_zeroState :
    ∀ b, b < 256 → Cpu_GetFlags (Cpu_SetFlags b zeroState) = b := by
  decide!

theorem byte_bits : ∀ b, b < 256 →
    ((toByte b >>> 0) &&& 1 = b % 2 ∧ (toByte b >>> 1) &&& 1 = b / 2 % 2 ∧
     (toByte b >>> 2) &&& 1 = b / 4 % 2 ∧ (toByte b >>> 3) &&& 1 = b / 8 % 2 ∧
     (toByte b >>> 4) &&& 1 = b / 16 % 2 ∧ (toByte b >>> 5) &&& 1 = b / 32 % 2 ∧
     (toByte b >>> 6) &&& 1 = b / 64 % 2 ∧ (toByte b >>> 7) &&& 1 = b / 128 % 2) := by
  decide!

/-- C2: for every byte `b`, `Cpu_SetFlags(b)` followed by `Cpu_GetFlags()` returns
`b`, and `Cpu_SetFlags` places bit 7 in `N`, bit 6 in `V`, bit 5 in `U`, bit 4 in
`B`, bit 3 in `D`, bit 2 in `I`, bit 1 in `Z` and bit 0 in `C`. -/
theorem C2_setFlags_getFlags (b : Nat) (st : State) (hb : b < 256) :
    Cpu_GetFlags (Cpu_SetFlags b st) = b ∧
    (Cpu_SetFlags b st).global_cpu.N = b / 128 % 2 ∧
    (Cpu_SetFlags b st).global_cpu.V = b / 64 % 2 ∧
    (Cpu_SetFlags b st).global_cpu.U = b / 32 % 2 ∧
    (Cpu_SetFlags b st).global_cpu.B = b / 16 % 2 ∧
    (Cpu_SetFlags b st).global_cpu.D = b / 8 % 2 ∧
    (Cpu_SetFlags b st).global_cpu.I = b / 4 % 2 ∧
    (Cpu_SetFlags b st).global_cpu.Z = b / 2 % 2 ∧
    (Cpu_SetFlags b st).global_cpu.C = b % 2 := by
  have hpack : Cpu_GetFlags (Cpu_SetFlags b st) = Cpu_GetFlags (Cpu_SetFlags b zeroState) := rfl
  obtain ⟨h0, h1, h2, h3, h4, h5, h6, h7⟩ := byte_bits b hb
  refine ⟨?_, h7, h6, h5, h4, h3, h2, h1, h0⟩
  rw [hpack]
  exact Cpu_GetFlags_SetFlags_zeroState b hb

/-- Witness for C2: the byte `0xA5` survives unpacking and packing. -/
theorem C2_setFlags_getFlags_witness :
    0xA5 < 256 ∧ Cpu_GetFlags (Cpu_SetFlags 0xA5 exLda) = 0xA5 :=
  ⟨by decide!, (C2_setFlags_getFlags 0xA5 exLda (by decide!)).1⟩

/-! ## C3: reset -/

/-- C3: after `Cpu_Init`, `A`, `X` and `Y` are `0`, `SP = 0xFD`, `PC` is the
little-endian word stored at `0xFFFC..0xFFFD`, the packed status byte is `0x24`,
`I = 1`, `U = 1`, and `C`, `Z`, `D`, `B`, `V`, `N` are all `0`. -/
theorem C3_init (st : State) :
    (Cpu_Init st).global_cpu.A = 0 ∧
    (Cpu_Init st).global_cpu.X = 0 ∧
    (Cpu_Init st).global_cpu.Y = 0 ∧
    (Cpu_Init st).global_cpu.SP = 0xFD ∧
    (Cpu_Init st).global_cpu.PC = Mem_ReadB st.mem 0xFFFC + 256 * Mem_ReadB st.mem 0xFFFD ∧
    Cpu_GetFlags (Cpu_Init st) = 0x24 ∧
    (Cpu_Init st).global_cpu.I = 1 ∧ (Cpu_Init st).global_cpu.U = 1 ∧
    (Cpu_Init st).global_cpu.C = 0 ∧ (Cpu_Init st).global_cpu.Z = 0 ∧
    (Cpu_Init st).global_cpu.D = 0 ∧ (Cpu_Init st).global_cpu.B = 0 ∧
    (Cpu_Init st).global_cpu.V = 0 ∧ (Cpu_Init st).global_cpu.N = 0 ∧
    (Cpu_Init st).mem = st.mem := by
  have hflags : Cpu_GetFlags (Cpu_Init st) = 0x24 := by
    have h : Cpu_GetFlags (Cpu_Init st) = Cpu_GetFlags (Cpu_SetFlags 0x24 zeroState) := by
      simp only [Cpu_GetFlags, Cpu_Init, Cpu_SetFlags]
    rw [h]
    decide!
  have hsp : toByte 0xFD = 0xFD := by decide!
  have hw : Mem_ReadW st.mem 0xFFFC = Mem_ReadB st.mem 0xFFFC + 256 * Mem_ReadB st.mem 0xFFFD := by
    simp [Mem_ReadW]
  have hb : ∀ k, k < 8 → (toByte 0x24 >>> k) &&& 1 = if k = 2 ∨ k = 5 then 1 else 0 := by
    decide!
  refine ⟨rfl, rfl, rfl, ?_, ?_, hflags, ?_, ?_, ?_, ?_, ?_, ?_, ?_, ?_, rfl⟩
  · simp only [Cpu_Init, Cpu_SetFlags, hsp]
  · simp only [Cpu_Init, Cpu_SetFlags, hw]
  · simpa [Cpu_Init, Cpu_SetFlags] using hb 2 (by omega)
  · simpa [Cpu_Init, Cpu_SetFlags] using hb 5 (by omega)
  · simpa [Cpu_Init, Cpu_SetFlags] using hb 0 (by omega)
  · simpa [Cpu_Init, Cpu_SetFlags] using hb 1 (by omega)
  · simpa [Cpu_Init, Cpu_SetFlags] using hb 3 (by omega)
  · simpa [Cpu_Init, Cpu_SetFlags] using hb 4 (by omega)
  · simpa [Cpu_Init, Cpu_SetFlags] using hb 6 (by omega)
  · simpa [Cpu_Init, Cpu_SetFlags] using hb 7 (by omega)

/-! ## C4: unassigned opcodes -/

theorem opsAt_future : ∀ i, i < 256 → (opsAt i).mode = .Future →
    (opsAt i).name = .OP_FUT ∧ (opsAt i).cycles = 1 := by
  decide!

/-- C4 as stated fails: at the unassigned opcode `0x02` (mode `Future`) `Cpu_Step`
does not leave the CPU state unchanged; `PC` moves from `0xC000` to `0xC001`. -/
theorem C4_counterexample :
    Mem_ReadB exFuture.mem exFuture.global_cpu.PC = 0x02 ∧
    (opsAt 0x02).mode = .Future ∧
    exFuture.global_cpu.PC = 0xC000 ∧
    (Cpu_Step 0 exFuture).2.global_cpu.PC = 0xC001 ∧
    (Cpu_Step 0 exFuture).2.global_cpu.PC ≠ exFuture.global_cpu.PC := by
  decide!

/-- C4 (amended): when the byte at `PC` selects a table entry of mode `Future`,
`Cpu_Step` signals no failure: it returns the entry's cycle count `1`, advances
`PC` by one byte modulo `65536`, and leaves `SP`, `A`, `X`, `Y` and all eight
flags unchanged. -/
theorem C4_future_step (stale : Nat) (st : State)
    (h : (opsAt (Mem_ReadB st.mem st.global_cpu.PC)).mode = .Future) :
    (Cpu_Step stale st).1 = 1 ∧
    (Cpu_Step stale st).2.global_cpu.PC = (st.global_cpu.PC + 1) % 65536 ∧
    (Cpu_Step stale st).2.global_cpu.SP = st.global_cpu.SP ∧
    (Cpu_Step stale st).2.global_cpu.A = st.global_cpu.A ∧
    (Cpu_Step stale st).2.global_cpu.X = st.global_cpu.X ∧
    (Cpu_Step stale st).2.global_cpu.Y = st.global_cpu.Y ∧
    (Cpu_Step stale st).2.global_cpu.C = st.global_cpu.C ∧
    (Cpu_Step stale st).2.global_cpu.Z = st.global_cpu.Z ∧
    (Cpu_Step stale st).2.global_cpu.I = st.global_cpu.I ∧
    (Cpu_Step stale st).2.global_cpu.D = st.global_cpu.D ∧
    (Cpu_Step stale st).2.global_cpu.B = st.global_cpu.B ∧
    (Cpu_Step stale st).2.global_cpu.U = st.global_cpu.U ∧
    (Cpu_Step stale st).2.global_cpu.V = st.global_cpu.V ∧
    (Cpu_Step stale st).2.global_cpu.N = st.global_cpu.N := by
  obtain ⟨hname, hcyc⟩ := opsAt_future _ (Mem_ReadB_lt st.mem st.global_cpu.PC) h
  have hpc : toWord (intAdd st.global_cpu.PC 1) = (st.global_cpu.PC + 1) % 65536 := by
    unfold toWord intAdd
    omega
  have hexec : (executed stale st).global_cpu =
      { st.global_cpu with PC := (st.global_cpu.PC + 1) % 65536 } := by
    simp [executed, advanced, hname, h, Cpu_Handle_OP, ADDRESS_MODE.toNat, OPBytes, hpc]
  rw [Cpu_Step_cycles, Cpu_Step_global_cpu, hexec, hcyc]
  simp

/-- Witness for C4 (amended): opcode `0x02` at `0xC000` from the reset state. -/
theorem C4_future_step_witness :
    (opsAt (Mem_ReadB exFuture.mem exFuture.global_cpu.PC)).mode = .Future ∧
    (Cpu_Step 7 exFuture).1 = 1 ∧
    (Cpu_Step 7 exFuture).2.global_cpu.PC = 0xC001 ∧
    (Cpu_Step 7 exFuture).2.global_cpu.SP = 0xFD :=
  have h := C4_future_step 7 exFuture (by decide!)
  ⟨by decide!, h.1, h.2.1, h.2.2.1⟩

/-! ## C5: pushing a byte -/

theorem stack_address : ∀ c, c < 256 →
    toWord (0x100 ||| promoteChar c) = (if c < 128 then 0x100 + c else 0xFF00 + c) := by
  decide!

theorem promoteChar_mod (c : Nat) : promoteChar (c % 256) = promoteChar c := by
  simp [promoteChar]

theorem Cpu_PushB_SP (b : Nat) (st : State) :
    (Cpu_PushB b st).global_cpu.SP = (st.global_cpu.SP + 255) % 256 := by
  simp only [Cpu_PushB, toByte, intSub, promoteChar]
  split <;> omega

theorem Cpu_PushB_mem (b : Nat) (st : State) :
    (Cpu_PushB b st).mem =
      Mem_WriteB st.mem
        (if st.global_cpu.SP % 256 < 128 then 0x100 + st.global_cpu.SP % 256
         else 0xFF00 + st.global_cpu.SP % 256) b := by
  have h := stack_address (st.global_cpu.SP % 256) (Nat.mod_lt _ (by decide!))
  rw [promoteChar_mod] at h
  simp only [Cpu_PushB, h]
  funext a
  simp [Mem_WriteB, toByte]

/-- C5 fails on the code at the reset stack pointer: with `SP = 0xFD` the `char`
`SP` is negative, `0x100|SP` sign-extends, and `Cpu_PushB(0xAB)` writes `0xAB` to
`0xFFFD` (the high byte of the reset vector), leaves the stack-page cell `0x01FD`
untouched, and sets `SP = 0xFC`. -/
theorem C5_pushB_at_reset_sp :
    exReset.global_cpu.SP = 0xFD ∧
    (Cpu_PushB 0xAB exReset).mem 0xFFFD = 0xAB ∧
    (Cpu_PushB 0xAB exReset).mem 0x01FD = exReset.mem 0x01FD ∧
    exReset.mem 0x01FD = 0 ∧
    (Cpu_PushB 0xAB exReset).global_cpu.SP = 0xFC := by
  decide!

/-! ## C6: JSR -/

theorem Cpu_PushW_eq (w : Nat) (st : State) :
    Cpu_PushW w st = Cpu_PushB (w % 65536 % 256) (Cpu_PushB (w % 65536 / 256) st) := by
  have e1 : toByte (toWord w >>> 8) = w % 65536 / 256 := by
    simp only [toByte, toWord, Nat.shiftRight_eq_div_pow]
    omega
  have e2 : toByte (toWord w &&& 0xff) = w % 65536 % 256 := by
    have h := Nat.and_pow_two_sub_one_eq_mod (toWord w) 8
    simp only [toByte, toWord] at h ⊢
    have h8 : (2 : Nat) ^ 8 - 1 = 0xff := by decide!
    rw [h8] at h
    rw [h]
    omega
  simp only [Cpu_PushW, e1, e2]

theorem Mem_ReadW_next (m : Memory) (a : Nat) :
    Mem_ReadW m (toWord (intAdd a 1)) = Mem_ReadB m (a + 1) + 256 * Mem_ReadB m (a + 2) := by
  have h : (toWord (intAdd a 1) % 65536 + 1) % 65536 = (a + 2) % 65536 := by
    unfold toWord intAdd
    omega
  unfold Mem_ReadW
  rw [Mem_ReadB_next]
  congr 2
  unfold Mem_ReadB
  rw [h]

/-- C6: with `0x20, lo, hi` at `PC = p`, one `Cpu_Step` sets `PC = hi*256 + lo`,
lowers `SP` by 2 modulo 256, and its memory effect is exactly two byte pushes of
the word `(p + 2) mod 65536`, first its high byte and then its low byte,
followed by the write to `0x2002` that ends every step. -/
theorem C6_jsr (stale : Nat) (st : State) (lo hi : Nat)
    (h0 : Mem_ReadB st.mem st.global_cpu.PC = 0x20)
    (h1 : Mem_ReadB st.mem (st.global_cpu.PC + 1) = lo)
    (h2 : Mem_ReadB st.mem (st.global_cpu.PC + 2) = hi) :
    (Cpu_Step stale st).2.global_cpu.PC = hi * 256 + lo ∧
    ((Cpu_Step stale st).2.global_cpu.SP : Int) = ((st.global_cpu.SP : Int) - 2) % 256 ∧
    (Cpu_Step stale st).2.mem =
      Mem_WriteB
        (Cpu_PushB ((st.global_cpu.PC + 2) % 65536 % 256)
          (Cpu_PushB ((st.global_cpu.PC + 2) % 65536 / 256) st)).mem
        0x2002 (if st.interrupt % 17 = 0 then 0x80 else 0x0) := by
  have hop : opsAt 0x20 = ⟨0x20, .Absolute, 6, .OP_JSR⟩ := by decide!
  have hlo : lo < 256 := h1 ▸ Mem_ReadB_lt _ _
  have hhi : hi < 256 := h2 ▸ Mem_ReadB_lt _ _
  have hret : toWord (intSub (toWord (intAdd st.global_cpu.PC 3)) 1) % 65536 =
      (st.global_cpu.PC + 2) % 65536 := by
    unfold toWord intSub intAdd
    omega
  have hexec : executed stale st =
      { Cpu_PushB ((st.global_cpu.PC + 2) % 65536 % 256)
          (Cpu_PushB ((st.global_cpu.PC + 2) % 65536 / 256) (advanced st)) with
        global_cpu :=
          { (Cpu_PushB ((st.global_cpu.PC + 2) % 65536 % 256)
              (Cpu_PushB ((st.global_cpu.PC + 2) % 65536 / 256) (advanced st))).global_cpu with
            PC := hi * 256 + lo } } := by
    have haddr : toWord (toWord (lo + 256 * hi)) = hi * 256 + lo := by
      unfold toWord
      omega
    simp only [executed, h0, hop, Cpu_Step_address]
    simp [Cpu_Handle_OP, Cpu_Handle_OP_JSR, Cpu_PushW_eq, Mem_ReadW_next, h1, h2, haddr]
    simp [advanced, h0, hop, ADDRESS_MODE.toNat, OPBytes, hret]
  refine ⟨?_, ?_, ?_⟩
  · rw [Cpu_Step_global_cpu, hexec]
  · rw [Cpu_Step_global_cpu, hexec]
    simp only [Cpu_PushB_SP]
    simp only [advanced]
    omega
  · rw [Cpu_Step_mem, hexec]
    simp only [Cpu_PushB_mem, Cpu_PushB_SP]
    simp [advanced, Cpu_PushB]

/-- Witness for C6: `JSR $D000` at `0xC000` with `SP = 0x7F` pushes `0xC0` at
`0x017F` and `0x02` at `0x017E`, leaves `SP = 0x7D` and `PC = 0xD000`. -/
theorem C6_jsr_witness :
    Mem_ReadB exJsr.mem exJsr.global_cpu.PC = 0x20 ∧
    Mem_ReadB exJsr.mem (exJsr.global_cpu.PC + 1) = 0x00 ∧
    Mem_ReadB exJsr.mem (exJsr.global_cpu.PC + 2) = 0xD0 ∧
    (Cpu_Step 0 exJsr).2.global_cpu.PC = 0xD000 ∧
    ((Cpu_Step 0 exJsr).2.global_cpu.SP : Int) = 0x7D ∧
    (Cpu_Step 0 exJsr).2.mem 0x017F = 0xC0 ∧
    (Cpu_Step 0 exJsr).2.mem 0x017E = 0x02 := by
  have h := C6_jsr 0 exJsr 0x00 0xD0 (by decide!) (by decide!) (by decide!)
  refine ⟨by decide!, by decide!, by decide!, h.1, ?_, ?_, ?_⟩
  · rw [h.2.1]; decide!
  · rw [h.2.2]; decide!
  · rw [h.2.2]; decide!

/-! ## C7: JSR followed by RTS -/

/-- C7 fails on the code: opcode `0x60` is in the table as `OP_RTS`, but
`Cpu_Handle_OP` has no `OP_RTS` branch, so the second step only advances `PC`
past the `RTS` byte.  From `PC = 0xC000` with `JSR $D000` and an `RTS` at
`0xD000`, two steps end at `PC = 0xD001`, not `0xC003`. -/
theorem C7_jsr_rts_does_not_return :
    exJsr.global_cpu.PC = 0xC000 ∧
    Mem_ReadB exJsr.mem 0xC000 = 0x20 ∧
    Mem_ReadB exJsr.mem 0xC001 = 0x00 ∧
    Mem_ReadB exJsr.mem 0xC002 = 0xD0 ∧
    Mem_ReadB exJsr.mem 0xD000 = 0x60 ∧
    (Cpu_Step 0 exJsr).2.global_cpu.PC = 0xD000 ∧
    Mem_ReadB (Cpu_Step 0 exJsr).2.mem 0xD000 = 0x60 ∧
    (opsAt 0x60).name = .OP_RTS ∧
    (Cpu_Step 0 (Cpu_Step 0 exJsr).2).2.global_cpu.PC = 0xD001 ∧
    (Cpu_Step 0 (Cpu_Step 0 exJsr).2).2.global_cpu.PC ≠ 0xC003 := by
  decide!

/-! ## C8: BRK -/

theorem Mem_ReadB_WriteB (m : Memory) (a v a2 : Nat) :
    Mem_ReadB (Mem_WriteB m a v) a2 =
      if a2 % 65536 = a % 65536 then v % 256 else Mem_ReadB m a2 := by
  unfold Mem_ReadB Mem_WriteB
  split <;> simp

theorem Cpu_PushB_stackpage (b : Nat) (st : State) (h : st.global_cpu.SP < 128) :
    Cpu_PushB b st =
      { st with
        mem := Mem_WriteB st.mem (0x100 + st.global_cpu.SP) b
        global_cpu := { st.global_cpu with SP := (st.global_cpu.SP + 255) % 256 } } := by
  have ha : toWord (0x100 ||| promoteChar st.global_cpu.SP) = 0x100 + st.global_cpu.SP := by
    rw [stack_address st.global_cpu.SP (by omega), if_pos h]
  have hsp : toByte (intSub (promoteChar st.global_cpu.SP) 1) =
      (st.global_cpu.SP + 255) % 256 := by
    simp only [toByte, intSub, promoteChar]
    split <;> omega
  have hw : Mem_WriteB st.mem (0x100 + st.global_cpu.SP) (toByte b) =
      Mem_WriteB st.mem (0x100 + st.global_cpu.SP) b := by
    funext a
    simp [Mem_WriteB, toByte]
  simp only [Cpu_PushB, ha, hsp, hw]

/-- C8 as stated fails: from `PC = 0x1000` with vector `0x1234`, `BRK` leaves the
status byte `0x34` (break bit set) on top of the stack at `0x017D`, but the word
beneath it is `0x1001`, the address after the `BRK` byte, not `0x1000`. -/
theorem C8_counterexample :
    exBrk.global_cpu.PC = 0x1000 ∧
    exBrk.global_cpu.SP = 0x7F ∧
    Mem_ReadB exBrk.mem 0x1000 = 0x00 ∧
    Mem_ReadW exBrk.mem 0xFFFE = 0x1234 ∧
    (Cpu_Step 0 exBrk).2.global_cpu.PC = 0x1234 ∧
    (Cpu_Step 0 exBrk).2.global_cpu.SP = 0x7C ∧
    Mem_ReadB (Cpu_Step 0 exBrk).2.mem 0x017D = 0x34 ∧
    Mem_ReadW (Cpu_Step 0 exBrk).2.mem 0x017E = 0x1001 ∧
    Mem_ReadW (Cpu_Step 0 exBrk).2.mem 0x017E ≠ 0x1000 := by
  decide!

theorem or_break_bit : ∀ x, x < 256 → (x ||| 0x10) < 256 ∧ (x ||| 0x10) / 16 % 2 = 1 := by
  decide!
theorem Cpu_GetFlags_lt (st : State) : Cpu_GetFlags st < 256 := by
  unfold Cpu_GetFlags toByte
  exact Nat.mod_lt _ (by omega)
theorem Cpu_PushB_interrupt (b : Nat) (st : State) :
    (Cpu_PushB b st).interrupt = st.interrupt := by
  unfold Cpu_PushB
  rfl

theorem Cpu_PushB_global_cpu (b : Nat) (st : State) :
    (Cpu_PushB b st).global_cpu =
      { st.global_cpu with SP := (st.global_cpu.SP + 255) % 256 } := by
  rw [← Cpu_PushB_SP b st]
  unfold Cpu_PushB
  rfl

theorem Cpu_PushB_mem_stackpage (b : Nat) (st : State) (h : st.global_cpu.SP < 128) :
    (Cpu_PushB b st).mem = Mem_WriteB st.mem (0x100 + st.global_cpu.SP) b := by
  rw [Cpu_PushB_stackpage b st h]

theorem Cpu_GetFlags_congr (s t : State)
    (h : s.global_cpu = { t.global_cpu with PC := s.global_cpu.PC, SP := s.global_cpu.SP }) :
    Cpu_GetFlags s = Cpu_GetFlags t := by
  unfold Cpu_GetFlags
  rw [h]
theorem Cpu_Handle_OP_BRK_stackpage (address : Nat) (st : State)
    (hlo : 2 ≤ st.global_cpu.SP) (hhi : st.global_cpu.SP ≤ 0x7F) :
    Cpu_Handle_OP_BRK address st =
      { st with
        mem := Mem_WriteB (Mem_WriteB (Mem_WriteB st.mem (0x100 + st.global_cpu.SP)
                  (st.global_cpu.PC % 65536 / 256))
                (0x100 + (st.global_cpu.SP - 1)) (st.global_cpu.PC % 65536 % 256))
              (0x100 + (st.global_cpu.SP - 2)) (Cpu_GetFlags st ||| 0x10)
        global_cpu := { st.global_cpu with
          SP := (st.global_cpu.SP + 253) % 256
          I := 1
          PC := Mem_ReadW (Mem_WriteB (Mem_WriteB (Mem_WriteB st.mem (0x100 + st.global_cpu.SP)
                  (st.global_cpu.PC % 65536 / 256))
                (0x100 + (st.global_cpu.SP - 1)) (st.global_cpu.PC % 65536 % 256))
              (0x100 + (st.global_cpu.SP - 2)) (Cpu_GetFlags st ||| 0x10)) 0xFFFE } } := by
  have e1 := Cpu_PushB_stackpage (st.global_cpu.PC % 65536 / 256) st (by omega)
  generalize hs1 : Cpu_PushB (st.global_cpu.PC % 65536 / 256) st = s1 at e1
  have h1sp : s1.global_cpu.SP = st.global_cpu.SP - 1 := by
    rw [e1]
    show (st.global_cpu.SP + 255) % 256 = st.global_cpu.SP - 1
    omega
  have e2 := Cpu_PushB_stackpage (st.global_cpu.PC % 65536 % 256) s1 (by omega)
  generalize hs2 : Cpu_PushB (st.global_cpu.PC % 65536 % 256) s1 = s2 at e2
  have h2sp : s2.global_cpu.SP = st.global_cpu.SP - 2 := by
    rw [e2]
    show (s1.global_cpu.SP + 255) % 256 = st.global_cpu.SP - 2
    omega
  have h2f : Cpu_GetFlags s2 = Cpu_GetFlags st := by
    rw [e2, e1]
    simp only [Cpu_GetFlags]
  have e3 := Cpu_PushB_stackpage (toByte (Cpu_GetFlags s2 ||| 0x10)) s2 (by omega)
  generalize hs3 : Cpu_PushB (toByte (Cpu_GetFlags s2 ||| 0x10)) s2 = s3 at e3
  have hbrk : Cpu_Handle_OP_BRK address st =
      { s3 with global_cpu := { s3.global_cpu with I := 1, PC := Mem_ReadW s3.mem 0xFFFE } } := by
    unfold Cpu_Handle_OP_BRK
    with_reducible rw [Cpu_PushW_eq, hs1, hs2]
    simp only [Cpu_Handle_OP_PHP, Cpu_Handle_OP_SEI]
    with_reducible rw [hs3]
  have hf : toByte (Cpu_GetFlags st ||| 0x10) = Cpu_GetFlags st ||| 0x10 := by
    unfold toByte
    exact Nat.mod_eq_of_lt (or_break_bit _ (Cpu_GetFlags_lt st)).1
  have hm1 : (st.global_cpu.SP + 255) % 256 = st.global_cpu.SP - 1 := by omega
  have hm2 : (st.global_cpu.SP - 1 + 255) % 256 = st.global_cpu.SP - 2 := by omega
  have hm3 : (st.global_cpu.SP - 2 + 255) % 256 = (st.global_cpu.SP + 253) % 256 := by omega
  with_reducible rw [hbrk, e3, h2f, hf, e2, e1]
  simp only [hm1, hm2, hm3]

theorem Mem_ReadW_WriteB_of_ne (m : Memory) (a v a2 : Nat)
    (h1 : a2 % 65536 ≠ a % 65536) (h2 : (a2 % 65536 + 1) % 65536 ≠ a % 65536) :
    Mem_ReadW (Mem_WriteB m a v) a2 = Mem_ReadW m a2 := by
  unfold Mem_ReadW
  rw [Mem_ReadB_WriteB, Mem_ReadB_WriteB, if_neg h1, if_neg h2]

/-- C8 (amended): from `PC = 0x1000` with a stack pointer `s` in `0x02..0x7F`, a
`BRK` byte at `0x1000` and the word `0x1234` at `0xFFFE`, one `Cpu_Step` leaves
`PC = 0x1234`, `I = 1`, `SP = (s - 3) mod 256`; the byte on top of the stack (at
`0x0100 + s - 2`) is the packed status with bit 4 set, and the word directly
beneath it (at `0x0100 + s - 1`) is `0x1001`, the address after the `BRK` byte. -/
theorem C8_brk (stale : Nat) (st : State)
    (hpc : st.global_cpu.PC = 0x1000)
    (hlo : 2 ≤ st.global_cpu.SP) (hhi : st.global_cpu.SP ≤ 0x7F)
    (h0 : Mem_ReadB st.mem 0x1000 = 0x00)
    (hv : Mem_ReadW st.mem 0xFFFE = 0x1234) :
    (Cpu_Step stale st).2.global_cpu.PC = 0x1234 ∧
    (Cpu_Step stale st).2.global_cpu.I = 1 ∧
    ((Cpu_Step stale st).2.global_cpu.SP : Int) = ((st.global_cpu.SP : Int) - 3) % 256 ∧
    Mem_ReadB (Cpu_Step stale st).2.mem (0x100 + (st.global_cpu.SP - 2)) =
      Cpu_GetFlags st ||| 0x10 ∧
    (Cpu_GetFlags st ||| 0x10) / 16 % 2 = 1 ∧
    Mem_ReadW (Cpu_Step stale st).2.mem (0x100 + (st.global_cpu.SP - 1)) = 0x1001 := by
  have hop : opsAt 0x00 = ⟨0x00, .Implied, 7, .OP_BRK⟩ := by decide!
  have hadvpc : toWord (intAdd 0x1000 1) = 0x1001 := by decide!
  have hflags : Cpu_GetFlags (advanced st) = Cpu_GetFlags st := by
    simp only [Cpu_GetFlags, advanced]
  have hbit := or_break_bit _ (Cpu_GetFlags_lt st)
  have hexec : executed stale st = Cpu_Handle_OP_BRK 0 (advanced st) := by
    simp only [executed, hpc, h0, hop, Cpu_Step_address]
    simp [Cpu_Handle_OP]
  have hbrk := Cpu_Handle_OP_BRK_stackpage 0 (advanced st)
    (by simpa [advanced] using hlo) (by simpa [advanced] using hhi)
  rw [← hexec] at hbrk
  have hasp : (advanced st).global_cpu.SP = st.global_cpu.SP := by simp only [advanced]
  have hamem : (advanced st).mem = st.mem := by simp only [advanced]
  have hapc : (advanced st).global_cpu.PC = 0x1001 := by
    simp [advanced, hpc, h0, hop, ADDRESS_MODE.toNat, OPBytes, hadvpc]
  rw [hasp, hamem, hapc, hflags] at hbrk
  have hpcv : Mem_ReadW
      (Mem_WriteB
        (Mem_WriteB (Mem_WriteB st.mem (0x100 + st.global_cpu.SP) (0x1001 % 65536 / 256))
          (0x100 + (st.global_cpu.SP - 1)) (0x1001 % 65536 % 256))
        (0x100 + (st.global_cpu.SP - 2)) (Cpu_GetFlags st ||| 0x10)) 0xFFFE = 0x1234 := by
    rw [Mem_ReadW_WriteB_of_ne _ _ _ _ (by omega) (by omega),
      Mem_ReadW_WriteB_of_ne _ _ _ _ (by omega) (by omega),
      Mem_ReadW_WriteB_of_ne _ _ _ _ (by omega) (by omega), hv]
  refine ⟨?_, ?_, ?_, ?_, hbit.2, ?_⟩
  · rw [Cpu_Step_global_cpu, hbrk]
    exact hpcv
  · rw [Cpu_Step_global_cpu, hbrk]
  · rw [Cpu_Step_global_cpu, hbrk]
    show (((st.global_cpu.SP + 253) % 256 : Nat) : Int) = ((st.global_cpu.SP : Int) - 3) % 256
    omega
  · rw [Cpu_Step_mem, hbrk]
    have hlt := hbit.1
    simp only [Mem_ReadB_WriteB]
    split_ifs <;> omega
  · rw [Cpu_Step_mem, hbrk]
    simp only [Mem_ReadW, Mem_ReadB_WriteB]
    split_ifs <;> omega

/-- Witness for C8 (amended): `BRK` at `0x1000` with `SP = 0x7F`. -/
theorem C8_brk_witness :
    exBrk.global_cpu.PC = 0x1000 ∧
    2 ≤ exBrk.global_cpu.SP ∧ exBrk.global_cpu.SP ≤ 0x7F ∧
    Mem_ReadB exBrk.mem 0x1000 = 0x00 ∧
    Mem_ReadW exBrk.mem 0xFFFE = 0x1234 ∧
    (Cpu_Step 0 exBrk).2.global_cpu.PC = 0x1234 ∧
    (Cpu_Step 0 exBrk).2.global_cpu.I = 1 ∧
    Mem_ReadW (Cpu_Step 0 exBrk).2.mem (0x100 + (exBrk.global_cpu.SP - 1)) = 0x1001 :=
  have h := C8_brk 0 exBrk (by decide!) (by decide!) (by decide!) (by decide!) (by decide!)
  ⟨by decide!, by decide!, by decide!, by decide!, by decide!, h.1, h.2.1, h.2.2.2.2.2⟩

/-! ## C9: relative branches -/

theorem promoteChar_eq_zero (c : Nat) (h : c < 256) : promoteChar c = 0 ↔ c = 0 := by
  unfold promoteChar
  split <;> omega

/-- C9: with a `BNE` (`0xD0`) or `BPL` (`0x10`) at `PC = p` and displacement byte
`d` at `p + 1`, after one `Cpu_Step` the program counter is
`(p + 2 + d') mod 65536` (`d' = d` for `d < 128`, `d - 256` otherwise) when the
tested flag is `0` (`Z` for `BNE`, `N` for `BPL`), and `(p + 2) mod 65536`
otherwise. -/
theorem C9_branch (stale : Nat) (st : State) (d : Nat)
    (hop : Mem_ReadB st.mem st.global_cpu.PC = 0xD0 ∨ Mem_ReadB st.mem st.global_cpu.PC = 0x10)
    (h1 : Mem_ReadB st.mem (st.global_cpu.PC + 1) = d)
    (hZ : st.global_cpu.Z < 256) (hN : st.global_cpu.N < 256) :
    ((Cpu_Step stale st).2.global_cpu.PC : Int) =
      if testedFlag (Mem_ReadB st.mem st.global_cpu.PC) st.global_cpu = 0 then
        relativeTarget st.global_cpu.PC d
      else ((st.global_cpu.PC : Int) + 2) % 65536 := by
  have hd : d < 256 := h1 ▸ Mem_ReadB_lt _ _
  have hbne : opsAt 0xD0 = ⟨0xd0, .Relative, 2, .OP_BNE⟩ := by decide!
  have hbpl : opsAt 0x10 = ⟨0x10, .Relative, 2, .OP_BPL⟩ := by decide!
  have hz := promoteChar_eq_zero _ hZ
  have hn := promoteChar_eq_zero _ hN
  rw [Cpu_Step_global_cpu]
  rcases hop with h0 | h0
  · simp only [executed, advanced, h0, hbne, Cpu_Step_address, testedFlag, relativeTarget]
    simp only [Cpu_Handle_OP, Cpu_Handle_OP_BNE, Mem_ReadB_next, h1, hz]
    simp only [ADDRESS_MODE.toNat, OPBytes, toWord, intAdd, intSub]
    simp
    split_ifs <;> simp <;> omega
  · simp only [executed, advanced, h0, hbpl, Cpu_Step_address, testedFlag, relativeTarget]
    simp only [Cpu_Handle_OP, Cpu_Handle_OP_BPL, Mem_ReadB_next, h1, hn]
    simp only [ADDRESS_MODE.toNat, OPBytes, toWord, intAdd, intSub]
    simp
    split_ifs <;> simp <;> omega

/-- Witness for C9: a taken `BNE` with displacement `0xFC` at `0xC000` lands on
`0xBFFE`, and a `BPL` with `N = 1` falls through to `0xC002`. -/
theorem C9_branch_witness :
    (Mem_ReadB exBne.mem exBne.global_cpu.PC = 0xD0 ∧
      Mem_ReadB exBne.mem (exBne.global_cpu.PC + 1) = 0xFC ∧
      exBne.global_cpu.Z = 0 ∧
      ((Cpu_Step 0 exBne).2.global_cpu.PC : Int) = 0xBFFE) ∧
    (Mem_ReadB exBpl.mem exBpl.global_cpu.PC = 0x10 ∧
      Mem_ReadB exBpl.mem (exBpl.global_cpu.PC + 1) = 0x10 ∧
      exBpl.global_cpu.N = 1 ∧
      ((Cpu_Step 0 exBpl).2.global_cpu.PC : Int) = 0xC002) := by
  have h1 := C9_branch 0 exBne 0xFC (Or.inl (by decide!)) (by decide!) (by decide!) (by decide!)
  have h2 := C9_branch 0 exBpl 0x10 (Or.inr (by decide!)) (by decide!) (by decide!) (by decide!)
  refine ⟨⟨by decide!, by decide!, by decide!, ?_⟩, ⟨by decide!, by decide!, by decide!, ?_⟩⟩
  · rw [h1]; decide!
  · rw [h2]; decide!

/-! ## C10: zero-page indexed addressing -/

/-- C10 fails on the code: `Cpu_Step` adds the index register to the operand byte
and stores the sum in the `uint16_t address` without masking it to eight bits.
For `LDA $FF,X` with `X = 1` the handler receives `0x0100` (and loads `0x22`
from page 1) where `(0xFF + 1) & 0xFF` is `0x0000`; `LDX $FF,Y` with `Y = 1`
behaves the same way; and with `X = 0x80` the `char` index is negative and
`LDA $10,X` resolves to `0xFF90`. -/
theorem C10_zeropage_indexed_leaves_page_zero :
    (opsAt 0xB5).mode = .ZeroPage_X ∧
    Mem_ReadB exZpx.mem (exZpx.global_cpu.PC + 1) = 0xFF ∧ exZpx.global_cpu.X = 1 ∧
    (0xFF + 1) &&& 0xFF = 0x0000 ∧
    Cpu_Step_address 0 exZpx (opsAt (Mem_ReadB exZpx.mem exZpx.global_cpu.PC)) = 0x0100 ∧
    (Cpu_Step 0 exZpx).2.global_cpu.A = 0x22 ∧
    (opsAt 0xB6).mode = .ZeroPage_Y ∧
    Mem_ReadB exZpy.mem (exZpy.global_cpu.PC + 1) = 0xFF ∧ exZpy.global_cpu.Y = 1 ∧
    Cpu_Step_address 0 exZpy (opsAt (Mem_ReadB exZpy.mem exZpy.global_cpu.PC)) = 0x0100 ∧
    (Cpu_Step 0 exZpy).2.global_cpu.X = 0x22 ∧
    Cpu_Step_address 0
      ⟨{ resetCpu 0xC000 with X := 0x80 }, memOf [(0xC000, 0xB5), (0xC001, 0x10)] 0, 0⟩
      (opsAt 0xB5) = 0xFF90 := by
  decide!

/-! ## C11: absolute indexed addressing -/

/-- C11 fails on the code: in the `Absolute_X` and `Absolute_Y` branches the
statement is `address = Mem_ReadB(PC + 1); + global_cpu.X;`, so the handler gets
only the low operand byte: neither the high byte nor the index register is
added.  `LDA $1234,X` with `X = 1` resolves to `0x0034` and loads `0x77` from
there instead of `0x55` from `0x1235`; `LDA $1234,Y` with `Y = 1` does the same. -/
theorem C11_absolute_indexed_drops_high_byte_and_index :
    (opsAt 0xBD).mode = .Absolute_X ∧
    Mem_ReadW exAbsX.mem (exAbsX.global_cpu.PC + 1) = 0x1234 ∧ exAbsX.global_cpu.X = 1 ∧
    Cpu_Step_address 0 exAbsX (opsAt (Mem_ReadB exAbsX.mem exAbsX.global_cpu.PC)) = 0x0034 ∧
    (0x1234 + 1) % 65536 = 0x1235 ∧
    Mem_ReadB exAbsX.mem 0x1235 = 0x55 ∧
    (Cpu_Step 0 exAbsX).2.global_cpu.A = 0x77 ∧
    (opsAt 0xB9).mode = .Absolute_Y ∧
    Mem_ReadW exAbsY.mem (exAbsY.global_cpu.PC + 1) = 0x1234 ∧ exAbsY.global_cpu.Y = 1 ∧
    Cpu_Step_address 0 exAbsY (opsAt (Mem_ReadB exAbsY.mem exAbsY.global_cpu.PC)) = 0x0034 ∧
    (Cpu_Step 0 exAbsY).2.global_cpu.A = 0x77 := by
  decide!

/-! ## C12: page-cross penalty -/

/-- C12 fails on the code: `Cpu_Step` returns `OP->cycles` unchanged.  For the
read instruction `LDA $12FF,X` with `X = 1` the base address `0x12FF` and the
indexed address `0x1300` lie in different pages, yet the step returns the table
value `4`, not `5`. -/
theorem C12_no_page_cross_penalty :
    (opsAt 0xBD).mode = .Absolute_X ∧ (opsAt 0xBD).name = .OP_LDA ∧ (opsAt 0xBD).cycles = 4 ∧
    Mem_ReadW exPageCross.mem (exPageCross.global_cpu.PC + 1) = 0x12FF ∧
    exPageCross.global_cpu.X = 1 ∧
    0x12FF / 256 ≠ (0x12FF + 1) % 65536 / 256 ∧
    (Cpu_Step 0 exPageCross).1 = 4 ∧
    (Cpu_Step 0 exPageCross).1 ≠ 4 + 1 := by
  decide!

/-! ## C13: NMI entry -/

/-- C13 as stated fails: `Cpu_Handle_IntNMI` pushes the status through
`Cpu_Handle_OP_PHP`, which ors `0x10` into the byte.  Entered at `PC = 0x1234`
with `SP = 0x7F` and status `0x24` (`B = 0`), it pushes `0x12`, `0x34` and then
`0x34`: bit 4 of the stacked status is `1` although `B = 0`.  The rest is as
claimed: `I = 1`, `SP = 0x7C`, `PC = 0x8000` from the vector at `0xFFFA`. -/
theorem C13_counterexample :
    exInt.global_cpu.PC = 0x1234 ∧ exInt.global_cpu.SP = 0x7F ∧
    exInt.global_cpu.B = 0 ∧ exInt.global_cpu.I = 1 ∧ Cpu_GetFlags exInt = 0x24 ∧
    Mem_ReadW exInt.mem 0xFFFA = 0x8000 ∧
    Mem_ReadB (Cpu_Handle_IntNMI exInt).mem 0x017F = 0x12 ∧
    Mem_ReadB (Cpu_Handle_IntNMI exInt).mem 0x017E = 0x34 ∧
    Mem_ReadB (Cpu_Handle_IntNMI exInt).mem 0x017D = 0x34 ∧
    Mem_ReadB (Cpu_Handle_IntNMI exInt).mem 0x017D / 16 % 2 = 1 ∧
    Mem_ReadB (Cpu_Handle_IntNMI exInt).mem 0x017D / 16 % 2 ≠ exInt.global_cpu.B ∧
    (Cpu_Handle_IntNMI exInt).global_cpu.SP = 0x7C ∧
    (Cpu_Handle_IntNMI exInt).global_cpu.I = 1 ∧
    (Cpu_Handle_IntNMI exInt).global_cpu.PC = 0x8000 := by
  decide!

theorem Cpu_GetFlags_PushB (b : Nat) (st : State) :
    Cpu_GetFlags (Cpu_PushB b st) = Cpu_GetFlags st := by
  simp only [Cpu_GetFlags, Cpu_PushB_global_cpu]

theorem toByte_or_break (st : State) :
    toByte (Cpu_GetFlags st ||| 0x10) = Cpu_GetFlags st ||| 0x10 := by
  unfold toByte
  exact Nat.mod_eq_of_lt (or_break_bit _ (Cpu_GetFlags_lt st)).1

/-- The state after the three pushes of an interrupt entry: `PC` high byte, `PC`
low byte, then the status byte with `0x10` ored in (`Cpu_Handle_OP_PHP`). -/
theorem interrupt_pushes (st : State) :
    Cpu_Handle_OP_PHP 0 (Cpu_PushW st.global_cpu.PC st) =
      Cpu_PushB (Cpu_GetFlags st ||| 0x10)
        (Cpu_PushB (st.global_cpu.PC % 65536 % 256)
          (Cpu_PushB (st.global_cpu.PC % 65536 / 256) st)) := by
  have h : Cpu_GetFlags (Cpu_PushW st.global_cpu.PC st) = Cpu_GetFlags st := by
    rw [Cpu_PushW_eq, Cpu_GetFlags_PushB, Cpu_GetFlags_PushB]
  unfold Cpu_Handle_OP_PHP
  rw [h, toByte_or_break, Cpu_PushW_eq]

theorem Cpu_Handle_IntNMI_eq (st : State) :
    Cpu_Handle_IntNMI st =
      { Cpu_Handle_OP_PHP 0 (Cpu_PushW st.global_cpu.PC st) with
        global_cpu :=
          { (Cpu_Handle_OP_PHP 0 (Cpu_PushW st.global_cpu.PC st)).global_cpu with
            PC := Mem_ReadW (Cpu_Handle_OP_PHP 0 (Cpu_PushW st.global_cpu.PC st)).mem 0xFFFA
            I := 1 } } := by
  simp only [Cpu_Handle_IntNMI]

theorem Cpu_Handle_IntIRQ_eq (st : State) :
    Cpu_Handle_IntIRQ st =
      { Cpu_Handle_OP_PHP 0 (Cpu_PushW st.global_cpu.PC st) with
        global_cpu :=
          { (Cpu_Handle_OP_PHP 0 (Cpu_PushW st.global_cpu.PC st)).global_cpu with
            PC := Mem_ReadW (Cpu_Handle_OP_PHP 0 (Cpu_PushW st.global_cpu.PC st)).mem 0xFFFE
            I := 1 } } := by
  simp only [Cpu_Handle_IntIRQ]

/-- C13 (amended): for every CPU state and memory, whether or not `I` was set,
`Cpu_Handle_IntNMI` pushes `PC` (high byte, then low byte), then pushes the byte
`Cpu_GetFlags() | 0x10`, the packed status with the break bit forced to `1`
whatever `B` holds; it sets `I = 1`, lowers `SP` by 3 modulo 256, loads `PC` with
the little-endian word found at `0xFFFA` after the pushes, and leaves `A`, `X`,
`Y` and the other seven flags unchanged. -/
theorem C13_nmi (st : State) :
    (Cpu_Handle_IntNMI st).mem =
      (Cpu_PushB (Cpu_GetFlags st ||| 0x10)
        (Cpu_PushB (st.global_cpu.PC % 65536 % 256)
          (Cpu_PushB (st.global_cpu.PC % 65536 / 256) st))).mem ∧
    (Cpu_GetFlags st ||| 0x10) / 16 % 2 = 1 ∧
    (Cpu_Handle_IntNMI st).global_cpu.I = 1 ∧
    (Cpu_Handle_IntNMI st).global_cpu.PC = Mem_ReadW (Cpu_Handle_IntNMI st).mem 0xFFFA ∧
    ((Cpu_Handle_IntNMI st).global_cpu.SP : Int) = ((st.global_cpu.SP : Int) - 3) % 256 ∧
    (Cpu_Handle_IntNMI st).global_cpu.A = st.global_cpu.A ∧
    (Cpu_Handle_IntNMI st).global_cpu.X = st.global_cpu.X ∧
    (Cpu_Handle_IntNMI st).global_cpu.Y = st.global_cpu.Y ∧
    (Cpu_Handle_IntNMI st).global_cpu.C = st.global_cpu.C ∧
    (Cpu_Handle_IntNMI st).global_cpu.Z = st.global_cpu.Z ∧
    (Cpu_Handle_IntNMI st).global_cpu.D = st.global_cpu.D ∧
    (Cpu_Handle_IntNMI st).global_cpu.B = st.global_cpu.B ∧
    (Cpu_Handle_IntNMI st).global_cpu.U = st.global_cpu.U ∧
    (Cpu_Handle_IntNMI st).global_cpu.V = st.global_cpu.V ∧
    (Cpu_Handle_IntNMI st).global_cpu.N = st.global_cpu.N := by
  have hbit := (or_break_bit _ (Cpu_GetFlags_lt st)).2
  rw [Cpu_Handle_IntNMI_eq, interrupt_pushes]
  refine ⟨rfl, hbit, rfl, rfl, ?_, ?_, ?_, ?_, ?_, ?_, ?_, ?_, ?_, ?_, ?_⟩
  · simp only [Cpu_PushB_global_cpu]
    omega
  all_goals simp only [Cpu_PushB_global_cpu]

/-! ## C14: IRQ entry -/

/-- C14 fails on the code: `Cpu_Handle_IntIRQ` never tests `I`.  Called with
`I = 1` at `PC = 0x1234`, `SP = 0x7F`, it pushes three bytes (`0x12`, `0x34`,
`0x34`) into cells that held `0`, lowers `SP` to `0x7C` and loads `PC` with
`0x9000` from the vector at `0xFFFE`. -/
theorem C14_irq_not_masked :
    exInt.global_cpu.I = 1 ∧
    exInt.global_cpu.PC = 0x1234 ∧ exInt.global_cpu.SP = 0x7F ∧
    Mem_ReadB exInt.mem 0x017F = 0 ∧ Mem_ReadB exInt.mem 0x017E = 0 ∧
    Mem_ReadB exInt.mem 0x017D = 0 ∧
    (Cpu_Handle_IntIRQ exInt).global_cpu.PC = 0x9000 ∧
    (Cpu_Handle_IntIRQ exInt).global_cpu.PC ≠ exInt.global_cpu.PC ∧
    (Cpu_Handle_IntIRQ exInt).global_cpu.SP = 0x7C ∧
    (Cpu_Handle_IntIRQ exInt).global_cpu.SP ≠ exInt.global_cpu.SP ∧
    Mem_ReadB (Cpu_Handle_IntIRQ exInt).mem 0x017F = 0x12 ∧
    Mem_ReadB (Cpu_Handle_IntIRQ exInt).mem 0x017E = 0x34 ∧
    Mem_ReadB (Cpu_Handle_IntIRQ exInt).mem 0x017D = 0x34 := by
  decide!

/-! ## C15: instruction lengths -/

theorem toWord_intAdd (a b : Nat) : toWord (intAdd a b) = (a + b) % 65536 := by
  unfold toWord intAdd
  omega

theorem OPBytes_documentedLength (m : ADDRESS_MODE) :
    OPBytes.getD m.toNat 0 = documentedLength m := by
  cases m <;> rfl

/-- C15: the table has 256 entries; for each of them `OPBytes` indexed by the
entry's addressing mode is the documented length of that mode, which is 1, 2 or
3; and that is the number of bytes by which `Cpu_Step` advances `PC` (modulo
`65536`) before it calls the handler. -/
theorem C15_instruction_lengths :
    __ops.length = 256 ∧
    (∀ i : Fin 256,
      OPBytes.getD (__ops.getD i.val (OP_FUTURE 0)).mode.toNat 0 =
        documentedLength (__ops.getD i.val (OP_FUTURE 0)).mode ∧
      (OPBytes.getD (__ops.getD i.val (OP_FUTURE 0)).mode.toNat 0 = 1 ∨
       OPBytes.getD (__ops.getD i.val (OP_FUTURE 0)).mode.toNat 0 = 2 ∨
       OPBytes.getD (__ops.getD i.val (OP_FUTURE 0)).mode.toNat 0 = 3)) ∧
    (∀ st : State, (advanced st).global_cpu.PC =
      (st.global_cpu.PC +
        documentedLength (opsAt (Mem_ReadB st.mem st.global_cpu.PC)).mode) % 65536) := by
  refine ⟨by decide!, by decide!, ?_⟩
  intro st
  simp only [advanced, toWord_intAdd, OPBytes_documentedLength]

/-! ## C17: the opcode field -/

/-- C17 fails on the code: the entry at index `0xE2` is `OP_FUTURE(0xd2)`, so its
opcode field holds `0xD2`; it is the only index whose entry does not record its
own index. -/
theorem C17_entry_0xE2_records_0xD2 :
    (__ops.getD 0xE2 (OP_FUTURE 0)).opcode = 0xD2 ∧
    (__ops.getD 0xE2 (OP_FUTURE 0)).opcode ≠ 0xE2 ∧
    (∀ i : Fin 256, i.val = 0xE2 ∨ (__ops.getD i.val (OP_FUTURE 0)).opcode = i.val) := by
  decide!

/-! ## C18: the (zero-page),Y column -/

/-- C18 fails on the code: opcode `0xB1` satisfies `b & 0x1F = 0x11` but its table
entry is `{0xb1, Absolute_Y, 5, OP_LDA}`, so `Cpu_Step` advances `PC` by 3 bytes
(from `0xC000` to `0xC003`), not 2.  The other seven opcodes of the column are
`Indirect_Y` with length 2. -/
theorem C18_entry_0xB1_is_absolute_y :
    0xB1 &&& 0x1F = 0x11 ∧
    (opsAt 0xB1).mode = .Absolute_Y ∧
    (opsAt 0xB1).mode ≠ .Indirect_Y ∧
    OPBytes.getD (opsAt 0xB1).mode.toNat 0 = 3 ∧
    Mem_ReadB exIndY.mem exIndY.global_cpu.PC = 0xB1 ∧
    exIndY.global_cpu.PC = 0xC000 ∧
    (Cpu_Step 0 exIndY).2.global_cpu.PC = 0xC003 ∧
    (∀ i : Fin 256, i.val &&& 0x1F ≠ 0x11 ∨ i.val = 0xB1 ∨
      ((opsAt i.val).mode = .Indirect_Y ∧ OPBytes.getD (opsAt i.val).mode.toNat 0 = 2)) := by
  decide!

/-! ## C20: the returned cycle count -/

/-- C20: the value `Cpu_Step` returns is the `cycles` field of the table entry
selected by the opcode byte at `PC`, whatever the rest of the state is; for every
one of the 256 entries that field is `1` exactly when the entry's mode is
`Future`, and lies between 2 and 7 otherwise. -/
theorem C20_returned_cycles :
    (∀ (stale : Nat) (st : State),
      (Cpu_Step stale st).1 = (opsAt (Mem_ReadB st.mem st.global_cpu.PC)).cycles) ∧
    (∀ i : Fin 256,
      ((opsAt i.val).cycles = 1 ↔ (opsAt i.val).mode = .Future) ∧
      (if (opsAt i.val).mode = .Future then (opsAt i.val).cycles = 1
       else 2 ≤ (opsAt i.val).cycles ∧ (opsAt i.val).cycles ≤ 7)) := by
  refine ⟨fun stale st => Cpu_Step_cycles stale st, by decide!⟩

/-! ## Handler dispatch: a case principle -/

/-- Whatever holds of the result of each of the sixteen handlers, and of the
untouched state (the final `else`), holds of the result of `Cpu_Handle_OP`. -/
theorem Cpu_Handle_OP_cases (P : State → Prop) (name : OPNAME) (address : Nat) (st : State)
    (hSEI : P (Cpu_Handle_OP_SEI address st)) (hCLD : P (Cpu_Handle_OP_CLD address st))
    (hLDA : P (Cpu_Handle_OP_LDA address st)) (hLDX : P (Cpu_Handle_OP_LDX address st))
    (hLDY : P (Cpu_Handle_OP_LDY address st)) (hTXS : P (Cpu_Handle_OP_TXS address st))
    (hBPL : P (Cpu_Handle_OP_BPL address st)) (hORA : P (Cpu_Handle_OP_ORA address st))
    (hBNE : P (Cpu_Handle_OP_BNE address st)) (hJSR : P (Cpu_Handle_OP_JSR address st))
    (hBRK : P (Cpu_Handle_OP_BRK address st)) (hINC : P (Cpu_Handle_OP_INC address st))
    (hSTA : P (Cpu_Handle_OP_STA address st)) (hSTX : P (Cpu_Handle_OP_STX address st))
    (hDEX : P (Cpu_Handle_OP_DEX address st)) (hDEY : P (Cpu_Handle_OP_DEY address st))
    (hElse : P st) :
    P (Cpu_Handle_OP name address st) := by
  cases name <;> simp only [Cpu_Handle_OP, reduceCtorEq, ↓reduceIte] <;> assumption

/-! ## C16: the write to 0x2002 -/

theorem Cpu_PushW_interrupt (w : Nat) (st : State) :
    (Cpu_PushW w st).interrupt = st.interrupt := by
  rw [Cpu_PushW_eq, Cpu_PushB_interrupt, Cpu_PushB_interrupt]

theorem Cpu_Handle_OP_PHP_interrupt (address : Nat) (st : State) :
    (Cpu_Handle_OP_PHP address st).interrupt = st.interrupt := by
  simp only [Cpu_Handle_OP_PHP, Cpu_PushB_interrupt]

theorem Cpu_Handle_OP_interrupt (name : OPNAME) (address : Nat) (st : State) :
    (Cpu_Handle_OP name address st).interrupt = st.interrupt := by
  apply Cpu_Handle_OP_cases (fun s => s.interrupt = st.interrupt)
  case hBPL => unfold Cpu_Handle_OP_BPL; split <;> simp only []
  case hBNE => unfold Cpu_Handle_OP_BNE; split <;> simp only []
  case hJSR => simp only [Cpu_Handle_OP_JSR, Cpu_PushW_interrupt]
  case hBRK =>
    simp only [Cpu_Handle_OP_BRK, Cpu_Handle_OP_SEI, Cpu_Handle_OP_PHP_interrupt,
      Cpu_PushW_interrupt]
  all_goals
    simp only [Cpu_Handle_OP_SEI, Cpu_Handle_OP_CLD, Cpu_Handle_OP_LDA, Cpu_Handle_OP_LDX,
      Cpu_Handle_OP_LDY, Cpu_Handle_OP_TXS, Cpu_Handle_OP_ORA, Cpu_Handle_OP_INC,
      Cpu_Handle_OP_STA, Cpu_Handle_OP_STX, Cpu_Handle_OP_DEX, Cpu_Handle_OP_DEY,
      Cpu_SetZ, Cpu_SetN]

theorem executed_interrupt (stale : Nat) (st : State) :
    (executed stale st).interrupt = st.interrupt := by
  unfold executed
  rw [Cpu_Handle_OP_interrupt]
  simp only [advanced]

theorem Cpu_Step_interrupt (stale : Nat) (st : State) :
    (Cpu_Step stale st).2.interrupt = intIncr st.interrupt := by
  have h2 : (Cpu_Step stale st).2.interrupt = intIncr (executed stale st).interrupt := by
    unfold Cpu_Step executed advanced
    simp only []
    split <;> rfl
  rw [h2, executed_interrupt]

theorem Cpu_Step_ppu (stale : Nat) (st : State) :
    (Cpu_Step stale st).2.mem 0x2002 = if st.interrupt % 17 = 0 then 0x80 else 0x00 := by
  have e : (0x2002 : Nat) = 0x2002 % 65536 := by norm_num
  rw [Cpu_Step_mem, executed_interrupt]
  unfold Mem_WriteB
  rw [if_pos e]
  split <;> rfl

theorem intIncr_toInt32 (i : Int) : intIncr (toInt32 i) = toInt32 (i + 1) := by
  unfold intIncr toInt32
  split <;> omega

theorem toInt32_of_lt (k : Nat) (h : k < 2147483648) : toInt32 (k : Int) = (k : Int) := by
  unfold toInt32
  omega

theorem runSteps_interrupt (stales : List Nat) (st : State) (i : Int)
    (h : st.interrupt = toInt32 i) :
    (runSteps stales st).interrupt = toInt32 (i + stales.length) := by
  induction stales generalizing st i with
  | nil => simpa [runSteps] using h
  | cons s rest ih =>
    have hstep : (Cpu_Step s st).2.interrupt = toInt32 (i + 1) := by
      rw [Cpu_Step_interrupt, h, intIncr_toInt32]
    have hrest := ih (Cpu_Step s st).2 (i + 1) hstep
    simp only [runSteps, List.length_cons]
    rw [hrest]
    congr 1
    push_cast
    omega

theorem runSteps_interrupt_from_zero (cpu : CPU) (m : Memory) (stales : List Nat) :
    (runSteps stales ⟨cpu, m, 0⟩).interrupt = toInt32 (stales.length : Int) := by
  have h0 : (⟨cpu, m, 0⟩ : State).interrupt = toInt32 0 := by
    unfold toInt32
    rfl
  have h := runSteps_interrupt stales ⟨cpu, m, 0⟩ 0 h0
  rw [h]
  congr 1
  omega

/-- C16 as stated fails for large `k`: the hidden counter is an `int`.  After
`2^31 + 8 = 2147483656` calls it has wrapped to `-2147483640`, and since
`-2147483640 % 17 = -1` in C the next call writes `0x00` to `0x2002`, although
`2147483656 mod 17 = 0`. -/
theorem C16_counterexample :
    (2147483656 : Nat) % 17 = 0 ∧
    (List.replicate 2147483656 0).length = 2147483656 ∧
    (runSteps (List.replicate 2147483656 0) ⟨resetCpu 0xC000, memOf [] 0, 0⟩).interrupt
      = -2147483640 ∧
    Int.tmod (-2147483640) 17 = -1 ∧
    (Cpu_Step 0 (runSteps (List.replicate 2147483656 0) ⟨resetCpu 0xC000, memOf [] 0, 0⟩)).2.mem
      0x2002 = 0x00 := by
  have hlen : (List.replicate 2147483656 0).length = 2147483656 := List.length_replicate _ _
  have hcnt : (runSteps (List.replicate 2147483656 0)
      ⟨resetCpu 0xC000, memOf [] 0, 0⟩).interrupt = -2147483640 := by
    rw [runSteps_interrupt_from_zero, hlen]
    unfold toInt32
    omega
  refine ⟨by omega, hlen, hcnt, by decide!, ?_⟩
  rw [Cpu_Step_ppu, hcnt]
  have hne : ¬ ((-2147483640 : Int) % 17 = 0) := by omega
  rw [if_neg hne]
/-- C16 (amended): every `Cpu_Step` ends by writing `0x2002`, with `0x80` when the
hidden `int` counter is a multiple of 17 and `0x00` otherwise.  Started from
counter `0`, and as long as the counter has not overflowed (the `k`-th call with
`k = 0, 1, ..., 2^31 - 2`, after `k` earlier calls), the counter holds `k`, the
call leaves `0x80` for `k mod 17 = 0` and `0x00` otherwise, and the counter
becomes `k + 1`; and two runs of one step from the same CPU state and the same
memory, one with no earlier call and one with a single earlier call, leave
different bytes at `0x2002`. -/
theorem C16_ppu_status_write (cpu : CPU) (m : Memory) (stales : List Nat) (stale : Nat)
    (hk : stales.length < 2147483647) :
    (∀ st : State, (Cpu_Step stale st).2.mem 0x2002 =
      (if Int.tmod st.interrupt 17 = 0 then 0x80 else 0x00)) ∧
    (runSteps stales ⟨cpu, m, 0⟩).interrupt = (stales.length : Int) ∧
    (Cpu_Step stale (runSteps stales ⟨cpu, m, 0⟩)).2.mem 0x2002 =
      (if stales.length % 17 = 0 then 0x80 else 0x00) ∧
    (Cpu_Step stale (runSteps stales ⟨cpu, m, 0⟩)).2.interrupt = (stales.length : Int) + 1 ∧
    (Cpu_Step stale ⟨cpu, m, 0⟩).2.mem 0x2002 = 0x80 ∧
    (Cpu_Step stale ⟨cpu, m, 1⟩).2.mem 0x2002 = 0x00 := by
  have hcnt : (runSteps stales ⟨cpu, m, 0⟩).interrupt = (stales.length : Int) := by
    rw [runSteps_interrupt_from_zero, toInt32_of_lt _ (by omega)]
  refine ⟨?_, hcnt, ?_, ?_, ?_, ?_⟩
  · intro st
    rw [Cpu_Step_ppu]
    simp only [tmod_seventeen_eq_zero]
  · rw [Cpu_Step_ppu, hcnt]
    by_cases h : stales.length % 17 = 0
    · have h2 : (stales.length : Int) % 17 = 0 := by omega
      rw [if_pos h, if_pos h2]
    · have h2 : ¬ ((stales.length : Int) % 17 = 0) := by omega
      rw [if_neg h, if_neg h2]
  · rw [Cpu_Step_interrupt, hcnt]
    unfold intIncr
    rw [if_neg (by omega)]
  · rw [Cpu_Step_ppu]
    rfl
  · rw [Cpu_Step_ppu]
    rfl

/-- Witness for C16 (amended): after 17 calls from the reset state the 18th call
(`k = 17`) writes `0x80`, and after 18 calls the next one (`k = 18`) writes `0x00`. -/
theorem C16_ppu_status_write_witness :
    (List.replicate 17 0).length < 2147483647 ∧
    (Cpu_Step 0 (runSteps (List.replicate 17 0) ⟨resetCpu 0xC000, memOf [] 0, 0⟩)).2.mem 0x2002
      = 0x80 ∧
    (List.replicate 18 0).length < 2147483647 ∧
    (Cpu_Step 0 (runSteps (List.replicate 18 0) ⟨resetCpu 0xC000, memOf [] 0, 0⟩)).2.mem 0x2002
      = 0x00 := by
  have h17 : (List.replicate 17 0).length < 2147483647 := by decide
  have h18 : (List.replicate 18 0).length < 2147483647 := by decide
  have a := (C16_ppu_status_write (resetCpu 0xC000) (memOf [] 0) (List.replicate 17 0) 0 h17).2.2.1
  have b := (C16_ppu_status_write (resetCpu 0xC000) (memOf [] 0) (List.replicate 18 0) 0 h18).2.2.1
  refine ⟨h17, ?_, h18, ?_⟩
  · rw [a]; rfl
  · rw [b]; rfl

/-! ## C19: the flags stay binary -/

theorem Cpu_GetFlags_flagsState (st : State) :
    Cpu_GetFlags st =
      Cpu_GetFlags (flagsState st.global_cpu.C st.global_cpu.Z st.global_cpu.I st.global_cpu.D
        st.global_cpu.B st.global_cpu.U st.global_cpu.V st.global_cpu.N) := by
  simp only [Cpu_GetFlags, flagsState]

theorem Cpu_SetFlags_GetFlags_binary : ∀ c z i d b u v n : Fin 2,
    (toByte (Cpu_GetFlags (flagsState c.val z.val i.val d.val b.val u.val v.val n.val)) >>> 0)
        &&& 1 = c.val ∧
    (toByte (Cpu_GetFlags (flagsState c.val z.val i.val d.val b.val u.val v.val n.val)) >>> 1)
        &&& 1 = z.val ∧
    (toByte (Cpu_GetFlags (flagsState c.val z.val i.val d.val b.val u.val v.val n.val)) >>> 2)
        &&& 1 = i.val ∧
    (toByte (Cpu_GetFlags (flagsState c.val z.val i.val d.val b.val u.val v.val n.val)) >>> 3)
        &&& 1 = d.val ∧
    (toByte (Cpu_GetFlags (flagsState c.val z.val i.val d.val b.val u.val v.val n.val)) >>> 4)
        &&& 1 = b.val ∧
    (toByte (Cpu_GetFlags (flagsState c.val z.val i.val d.val b.val u.val v.val n.val)) >>> 5)
        &&& 1 = u.val ∧
    (toByte (Cpu_GetFlags (flagsState c.val z.val i.val d.val b.val u.val v.val n.val)) >>> 6)
        &&& 1 = v.val ∧
    (toByte (Cpu_GetFlags (flagsState c.val z.val i.val d.val b.val u.val v.val n.val)) >>> 7)
        &&& 1 = n.val := by
  decide!

theorem Cpu_SetFlags_GetFlags_of_flagsBinary (st : State) (h : flagsBinary st.global_cpu) :
    Cpu_SetFlags (Cpu_GetFlags st) st = st := by
  obtain ⟨hC, hZ, hI, hD, hB, hU, hV, hN⟩ := h
  obtain ⟨e0, e1, e2, e3, e4, e5, e6, e7⟩ :=
    Cpu_SetFlags_GetFlags_binary ⟨st.global_cpu.C, by omega⟩ ⟨st.global_cpu.Z, by omega⟩
      ⟨st.global_cpu.I, by omega⟩ ⟨st.global_cpu.D, by omega⟩ ⟨st.global_cpu.B, by omega⟩
      ⟨st.global_cpu.U, by omega⟩ ⟨st.global_cpu.V, by omega⟩ ⟨st.global_cpu.N, by omega⟩
  simp only [] at e0 e1 e2 e3 e4 e5 e6 e7
  unfold Cpu_SetFlags
  rw [Cpu_GetFlags_flagsState, e0, e1, e2, e3, e4, e5, e6, e7]
theorem Cpu_SetFlags_flagsBinary (b : Nat) (st : State) :
    flagsBinary (Cpu_SetFlags b st).global_cpu := by
  simp only [flagsBinary, Cpu_SetFlags]
  exact ⟨Nat.and_le_right, Nat.and_le_right, Nat.and_le_right, Nat.and_le_right,
    Nat.and_le_right, Nat.and_le_right, Nat.and_le_right, Nat.and_le_right⟩

theorem Cpu_PushW_global_cpu_flags (w : Nat) (st : State) :
    flagsBinary (Cpu_PushW w st).global_cpu ↔ flagsBinary st.global_cpu := by
  simp only [flagsBinary, Cpu_PushW_eq, Cpu_PushB_global_cpu]

theorem Cpu_Handle_OP_flagsBinary (name : OPNAME) (address : Nat) (st : State)
    (h : flagsBinary st.global_cpu) :
    flagsBinary (Cpu_Handle_OP name address st).global_cpu := by
  have h0 := h
  obtain ⟨hC, hZ, hI, hD, hB, hU, hV, hN⟩ := h
  apply Cpu_Handle_OP_cases (fun s => flagsBinary s.global_cpu)
  case hElse => exact h0
  case hBPL => unfold Cpu_Handle_OP_BPL; split <;> exact h0
  case hBNE => unfold Cpu_Handle_OP_BNE; split <;> exact h0
  case hJSR =>
    simp only [Cpu_Handle_OP_JSR, flagsBinary, Cpu_PushW_eq, Cpu_PushB_global_cpu]
    exact h0
  case hBRK =>
    simp only [Cpu_Handle_OP_BRK, Cpu_Handle_OP_SEI, Cpu_Handle_OP_PHP, flagsBinary,
      Cpu_PushW_eq, Cpu_PushB_global_cpu]
    exact ⟨hC, hZ, Nat.le_refl 1, hD, hB, hU, hV, hN⟩
  all_goals
    simp only [Cpu_Handle_OP_SEI, Cpu_Handle_OP_CLD, Cpu_Handle_OP_LDA, Cpu_Handle_OP_LDX,
      Cpu_Handle_OP_LDY, Cpu_Handle_OP_TXS, Cpu_Handle_OP_ORA, Cpu_Handle_OP_INC,
      Cpu_Handle_OP_STA, Cpu_Handle_OP_STX, Cpu_Handle_OP_DEX, Cpu_Handle_OP_DEY,
      Cpu_SetZ, Cpu_SetN, flagsBinary]
    refine ⟨?_, ?_, ?_, ?_, ?_, ?_, ?_, ?_⟩ <;> first | assumption | omega | (split <;> omega)

theorem Cpu_Step_flagsBinary (stale : Nat) (st : State) (h : flagsBinary st.global_cpu) :
    flagsBinary (Cpu_Step stale st).2.global_cpu := by
  rw [Cpu_Step_global_cpu]
  unfold executed
  apply Cpu_Handle_OP_flagsBinary
  simpa only [flagsBinary, advanced] using h

theorem interrupt_flagsBinary (st : State) (h : flagsBinary st.global_cpu) :
    flagsBinary (Cpu_Handle_IntNMI st).global_cpu ∧
    flagsBinary (Cpu_Handle_IntIRQ st).global_cpu := by
  obtain ⟨hC, hZ, hI, hD, hB, hU, hV, hN⟩ := h
  rw [Cpu_Handle_IntNMI_eq, Cpu_Handle_IntIRQ_eq, interrupt_pushes]
  simp only [flagsBinary, Cpu_PushB_global_cpu]
  exact ⟨⟨hC, hZ, Nat.le_refl 1, hD, hB, hU, hV, hN⟩, ⟨hC, hZ, Nat.le_refl 1, hD, hB, hU, hV, hN⟩⟩

theorem Reachable_flagsBinary (st : State) (h : Reachable st) : flagsBinary st.global_cpu := by
  induction h with
  | init s => exact Cpu_SetFlags_flagsBinary _ _
  | step stale s _ ih => exact Cpu_Step_flagsBinary stale s ih
  | nmi s _ ih => exact (interrupt_flagsBinary s ih).1
  | irq s _ ih => exact (interrupt_flagsBinary s ih).2

/-- C19: in every state reachable from `Cpu_Init` by `Cpu_Step`,
`Cpu_Handle_IntNMI` and `Cpu_Handle_IntIRQ` calls, each of the eight flags holds
`0` or `1`, and `Cpu_SetFlags(Cpu_GetFlags())` leaves the state, and so all eight
flags, unchanged. -/
theorem C19_flags_binary (st : State) (h : Reachable st) :
    ((st.global_cpu.C = 0 ∨ st.global_cpu.C = 1) ∧ (st.global_cpu.Z = 0 ∨ st.global_cpu.Z = 1) ∧
     (st.global_cpu.I = 0 ∨ st.global_cpu.I = 1) ∧ (st.global_cpu.D = 0 ∨ st.global_cpu.D = 1) ∧
     (st.global_cpu.B = 0 ∨ st.global_cpu.B = 1) ∧ (st.global_cpu.U = 0 ∨ st.global_cpu.U = 1) ∧
     (st.global_cpu.V = 0 ∨ st.global_cpu.V = 1) ∧ (st.global_cpu.N = 0 ∨ st.global_cpu.N = 1)) ∧
    Cpu_SetFlags (Cpu_GetFlags st) st = st := by
  have hb := Reachable_flagsBinary st h
  refine ⟨?_, Cpu_SetFlags_GetFlags_of_flagsBinary st hb⟩
  obtain ⟨hC, hZ, hI, hD, hB, hU, hV, hN⟩ := hb
  refine ⟨?_, ?_, ?_, ?_, ?_, ?_, ?_, ?_⟩ <;> omega

/-- Witness for C19: the state after reset on the `LDA #0x80` example, one step,
an NMI and an IRQ is reachable, and its `N` flag is `0` or `1`. -/
theorem C19_flags_binary_witness :
    Reachable (Cpu_Handle_IntIRQ (Cpu_Handle_IntNMI (Cpu_Step 0 (Cpu_Init exLda)).2)) ∧
    ((Cpu_Handle_IntIRQ (Cpu_Handle_IntNMI (Cpu_Step 0 (Cpu_Init exLda)).2)).global_cpu.N = 0 ∨
     (Cpu_Handle_IntIRQ (Cpu_Handle_IntNMI (Cpu_Step 0 (Cpu_Init exLda)).2)).global_cpu.N = 1) :=
  have hr : Reachable (Cpu_Handle_IntIRQ (Cpu_Handle_IntNMI (Cpu_Step 0 (Cpu_Init exLda)).2)) :=
    Reachable.irq _ (Reachable.nmi _ (Reachable.step 0 _ (Reachable.init exLda)))
  ⟨hr, (C19_flags_binary _ hr).1.2.2.2.2.2.2.2⟩

end Xnes
